import Mathlib

/-!
Shallow embedding of `lxc/copy.go` (the `lxc copy` command of this LXD
checkout): the state resolver, the local-copy path, and the migration
orchestrator of `copyCmd.copyContainer`, together with `copyCmd.run`.

External collaborators (the LXD client API) are modelled as an `Env` of
oracle functions; every outward call is also recorded in a trace of
events so that theorems can speak about which network calls were made,
with which arguments, and in which order.
-/

set_option autoImplicit false

namespace LxcCopy

/-- Go `map[string]string`, modelled as an association list (first hit wins
on lookup, `mapSet` keeps keys unique the way a Go map does). -/
abbrev ConfigMap := List (String × String)

/-- Go `map[string]map[string]string` (the device map). -/
abbrev Devices := List (String × ConfigMap)

/-- A value of Go interface type `interface\x7b\x7d` found in operation metadata:
either a string, or anything else (on which the `v.(string)` type
assertion of `copy.go` line 196 panics). -/
inductive MetaVal where
  | str (s : String)
  | other
deriving DecidableEq

instance {ε α : Type} [DecidableEq ε] [DecidableEq α] : DecidableEq (Except ε α) :=
  fun x y =>
    match x, y with
    | Except.ok a, Except.ok b =>
      if h : a = b then isTrue (by rw [h]) else isFalse (fun hc => h (Except.ok.inj hc))
    | Except.error a, Except.error b =>
      if h : a = b then isTrue (by rw [h]) else isFalse (fun hc => h (Except.error.inj hc))
    | Except.ok _, Except.error _ => isFalse (fun hc => Except.noConfusion hc)
    | Except.error _, Except.ok _ => isFalse (fun hc => Except.noConfusion hc)

/-- The fields of `api.Operation` that `copy.go` reads: `Resources`,
`Metadata` and `Err`. -/
structure Operation where
  resources : List (String × List String)
  metadata : List (String × MetaVal)
  opErr : String
deriving DecidableEq

/-- The fields of `api.Response` that `copy.go` reads: the `Operation`
path and the result of `MetadataAsOperation()` (`.error` when that call
returns a non-nil error). -/
structure Response where
  operation : String
  metaOp : Except String Operation
deriving DecidableEq

/-- The per-entity state fetched by `ContainerInfo` / `SnapshotInfo`:
the four fields copied into `status` (lines 78-81 / 89-92) plus the
`Ephemeral` field read at line 176. -/
structure ContainerState where
  architecture : String
  devices : Devices
  config : ConfigMap
  profiles : List String
  ephemeral : Bool

/-- An `api.Profile`; `copy.go` only reads its `Name` (line 163). -/
structure Profile where
  name : String

/-- The local mutable `status` struct of lines 59-64. -/
structure Status where
  architecture : String
  devices : Devices
  config : ConfigMap
  profiles : List String
deriving DecidableEq

/-- The arguments of a `source.LocalCopy` call (line 121). -/
structure LocalCopyArgs where
  srcName : String
  dstName : String
  config : ConfigMap
  profiles : List String
  ephemeral : Bool
  containerOnly : Bool
deriving DecidableEq

/-- The arguments of a `dest.MigrateFrom` call (line 222), in source
order (the two client objects are represented by the remotes in the
trace event). -/
structure MigrateArgs where
  destName : String
  sourceWSUrl : String
  certificate : String
  secrets : ConfigMap
  architecture : String
  config : ConfigMap
  devices : Devices
  profiles : List String
  baseImage : String
  ephemeral : Bool
  push : Bool
  sourceOperation : String
  containerOnly : Bool
deriving DecidableEq

/-- Trace of the outward-visible actions of one `copyContainer` run:
each network call of `copy.go`, plus the `fmt.Printf` reporting of the
created container's name. -/
inductive Ev where
  | containerInfo (remote name : String)
  | snapshotInfo (remote name : String)
  | localCopy (remote : String) (args : LocalCopyArgs)
  | waitForSuccess (remote op : String)
  | listProfiles (remote : String)
  | getMigrationSourceWS (remote name : String) (stateful containerOnly : Bool)
  | addresses (remote : String)
  | migrateFrom (remote : String) (args : MigrateArgs)
  | getOperation (remote op : String)
  | print (s : String)
deriving DecidableEq

abbrev Trace := List Ev

/-- The distinguishable error returns of `copyContainer` / `run`. -/
inductive CopyErr where
  /-- `errArgs` returned by `run` when no argument is given (line 285). -/
  | errArgs
  /-- "you must specify a source container name" (line 47). -/
  | mustSpecifySource
  /-- "can't copy to the same container name" (line 118). -/
  | sameName
  /-- "didn't get any affected image, container or snapshot from server"
  (lines 134, 139, 258, 263). -/
  | missingResource
  /-- "not all the profiles from the source exist on the target" (line 167). -/
  | profileMismatch
  /-- A collaborator error returned unchanged (`return err`). -/
  | propagated (e : String)
  /-- "Migration failed on source host: %s" (line 276). -/
  | migrationSourceHost (s : String)
  /-- "Migration failed on target host: %s" wrapping
  `migrationErrFromClient`, which is `none` when the last handshake
  succeeded (line 280). -/
  | migrationTargetHost (e : Option String)
deriving DecidableEq

/-- Result of a run: normal success (`return nil`), an error return, or
a runtime panic (the unchecked `v.(string)` assertion). -/
inductive Outcome where
  | ok
  | err (e : CopyErr)
  | panicked
deriving DecidableEq

/-- Go map read `m[k]` returning the value and presence flag; on a miss
the value is the zero value (`""` for strings). -/
def mapGet (m : ConfigMap) (k : String) : String :=
  match m.find? (fun p => p.1 == k) with
  | some p => p.2
  | none => ""

/-- Go map write `m[k] = v`: overwrite in place, or append a new entry. -/
def mapSet (m : ConfigMap) (k v : String) : ConfigMap :=
  if m.any (fun p => p.1 == k) then
    m.map (fun p => if p.1 == k then (k, v) else p)
  else
    m ++ [(k, v)]

/-- Go `strings.HasPrefix`, done structurally on the character lists so
that it evaluates inside the kernel. -/
def strHasPrefix (s pre : String) : Bool :=
  pre.data.isPrefixOf s.data

/-- Split a string at the first occurrence of `sep` (Go
`strings.SplitN(s, sep, 2)` for a one-character separator): `none` when
the separator does not occur. -/
def splitFirstAux (sep : Char) : List Char → List Char → Option (List Char × List Char)
  | [], _ => none
  | c :: rest, acc =>
    if c == sep then some (acc.reverse, rest) else splitFirstAux sep rest (c :: acc)

/-- Go `strings.Split(s, sep)` for a one-character separator, done
structurally on the character list. -/
def splitOnCharAux (sep : Char) : List Char → List Char → List String
  | [], acc => [String.mk acc.reverse]
  | c :: rest, acc =>
    if c == sep then
      String.mk acc.reverse :: splitOnCharAux sep rest []
    else
      splitOnCharAux sep rest (c :: acc)

/-- Go `strings.Split(s, sep)` for a one-character separator. -/
def splitOnChar (sep : Char) (s : String) : List String :=
  splitOnCharAux sep s.data []

/-- Modelled from the spec: `shared.IsSnapshot` is not under `src/`; the
spec's locator grammar is `endpoint:name` or `endpoint:name/snapshot`,
so a name denotes a snapshot exactly when it contains the `/` delimiter. -/
def IsSnapshot (name : String) : Bool :=
  name.data.contains '/'

/-- Modelled from the spec: `config.ParseRemoteAndContainer` is not under
`src/`; per the spec's grammar a locator is `endpoint:name` where an
absent endpoint (no colon) means the default endpoint, and the name is
everything after the first colon. -/
def parseRemoteAndContainer (defaultRemote raw : String) : String × String :=
  match splitFirstAux ':' raw.data [] with
  | none => (defaultRemote, raw)
  | some pr => (String.mk pr.1, String.mk pr.2)

/-- Modelled from the spec: `shared.NewStringSet`/`IsSubset` are not under
`src/`; the spec asks that every source profile name be present in the
destination catalog. -/
def isSubset (xs ys : List String) : Bool :=
  xs.all (fun x => ys.contains x)

/-- The collaborator oracle: one field per external call `copy.go`
makes, keyed by the remote the client was built for.
`sourceArrivesFirst` resolves the scheduling nondeterminism of the two
concurrent operation waiters for the attempt at a given address: `true`
means the source waiter's channel message is received first. -/
structure Env where
  defaultRemote : String
  newClient : String → Except String Unit
  containerInfo : String → String → Except String ContainerState
  snapshotInfo : String → String → Except String ContainerState
  localCopy : String → LocalCopyArgs → Except String Response
  waitForSuccess : String → String → Option String
  listProfiles : String → Except String (List Profile)
  getMigrationSourceWS : String → String → Bool → Bool → Except String Response
  certificate : String → String
  addresses : String → Except String (List String)
  migrateFrom : String → MigrateArgs → Except String Response
  getOperation : String → String → Except String Operation
  sourceArrivesFirst : String → Bool

/-- Lines 50-52: `if destName == "" && destResource != "" \x7b destName =
sourceName \x7d`. -/
def defaultDestName (sourceName destName destResource : String) : String :=
  if destName = "" ∧ destResource ≠ "" then sourceName else destName

/-- Lines 72-93: fetch the four `status` fields from `ContainerInfo` or
`SnapshotInfo` depending on `shared.IsSnapshot(sourceName)`. -/
def lookupStatus (env : Env) (sourceRemote sourceName : String) :
    Trace × Except String Status :=
  if IsSnapshot sourceName then
    ([Ev.snapshotInfo sourceRemote sourceName],
      (env.snapshotInfo sourceRemote sourceName).map
        (fun r => ⟨r.architecture, r.devices, r.config, r.profiles⟩))
  else
    ([Ev.containerInfo sourceRemote sourceName],
      (env.containerInfo sourceRemote sourceName).map
        (fun r => ⟨r.architecture, r.devices, r.config, r.profiles⟩))

/-- Lines 95-97: append the `--profile` arguments when the flag list is
non-nil. -/
def applyProfArgs (profArgs : Option (List String)) (st : Status) : Status :=
  match profArgs with
  | some ps => { st with profiles := st.profiles ++ ps }
  | none => st

/-- Lines 99-103: merge the ambient `configMap` overrides into
`status.Config` by key. -/
def applyConfigMap (configMap : Option ConfigMap) (st : Status) : Status :=
  match configMap with
  | some cm => { st with config := cm.foldl (fun m kv => mapSet m kv.1 kv.2) st.config }
  | none => st

/-- Lines 107-113: with `keepVolatile` false, delete every config key
that begins with the `volatile` prefix. -/
def stripVolatile (st : Status) : Status :=
  { st with config := st.config.filter (fun kv => !strHasPrefix kv.1 "volatile") }

/-- Lines 59-113 as one step: lookup, profile append, config merge, the
base-image read (before stripping), and the volatile strip. Returns the
final `status` and `baseImage`. -/
def resolveState (env : Env) (profArgs : Option (List String))
    (configMap : Option ConfigMap) (sourceRemote sourceName : String)
    (keepVolatile : Bool) : Trace × Except String (Status × String) :=
  match lookupStatus env sourceRemote sourceName with
  | (tr, Except.error e) => (tr, Except.error e)
  | (tr, Except.ok st0) =>
    let st2 := applyConfigMap configMap (applyProfArgs profArgs st0)
    let baseImage := mapGet st2.config "volatile.base_image"
    (tr, Except.ok (if keepVolatile then st2 else stripVolatile st2, baseImage))

/-- Lines 131-144 and 255-268 (identical in the source): find the
`containers` resource collection of the completed operation, fail with
the missing-resource error when the metadata, the collection, or its
first entry is absent, and otherwise print the last path segment of the
first entry. -/
def reportCreatedName (resp : Response) : Trace × Except CopyErr Unit :=
  match resp.metaOp with
  | Except.error _ => ([], Except.error CopyErr.missingResource)
  | Except.ok op =>
    match op.resources.find? (fun p => p.1 == "containers") with
    | none => ([], Except.error CopyErr.missingResource)
    | some entry =>
      match entry.2 with
      | [] => ([], Except.error CopyErr.missingResource)
      | c :: _ =>
        ([Ev.print ("Container name is: " ++ (splitOnChar '/' c).getLastD "")],
          Except.ok ())

/-- Lines 116-147: the same-endpoint local-copy path (after the
same-remote test has already succeeded). -/
def localPath (env : Env) (sourceRemote sourceName destName destResource : String)
    (status : Status) (ephemeral : Int) (containerOnly : Bool) : Trace × Outcome :=
  if sourceName = destName then
    ([], Outcome.err CopyErr.sameName)
  else
    let args : LocalCopyArgs :=
      ⟨sourceName, destName, status.config, status.profiles, ephemeral == 1, containerOnly⟩
    match env.localCopy sourceRemote args with
    | Except.error e =>
      ([Ev.localCopy sourceRemote args], Outcome.err (CopyErr.propagated e))
    | Except.ok cp =>
      match env.waitForSuccess sourceRemote cp.operation with
      | some e =>
        ([Ev.localCopy sourceRemote args, Ev.waitForSuccess sourceRemote cp.operation],
          Outcome.err (CopyErr.propagated e))
      | none =>
        if destResource = "" then
          let rep := reportCreatedName cp
          ([Ev.localCopy sourceRemote args, Ev.waitForSuccess sourceRemote cp.operation] ++ rep.1,
            match rep.2 with
            | Except.error ce => Outcome.err ce
            | Except.ok _ => Outcome.ok)
        else
          ([Ev.localCopy sourceRemote args, Ev.waitForSuccess sourceRemote cp.operation],
            Outcome.ok)

/-- Line 232: the source waiter's sender id. -/
def sourceOpId : Nat := 1

/-- Line 230: the destination waiter's sender id. -/
def destOpId : Nat := 0

/-- Go map read `tmp[sourceOpId]` with presence flag; a miss yields the
zero value of the `error` interface, which is `nil` (`none` here). -/
def goMapRead (m : List (Nat × Option String)) (k : Nat) : Option String × Bool :=
  match m.find? (fun p => p.1 == k) with
  | some p => (p.2, true)
  | none => (none, false)

/-- Lines 237-245: drain `cap(waitchan) = 2` messages; each message
`tmp` is the singleton map `\x7bsenderid: err\x7d` sent by one waiter. The loop
does `err, ok := tmp[sourceOpId]`, stores `err` as `sourceOpErr` when
`ok` and as `destOpErr` otherwise. The accumulator is
`(sourceOpErr, destOpErr)`. -/
def drainWaitchan (msgs : List (List (Nat × Option String))) :
    Option String × Option String :=
  msgs.foldl
    (fun acc tmp =>
      let r := goMapRead tmp sourceOpId
      if r.2 then (r.1, acc.2) else (acc.1, r.1))
    (none, none)

/-- The channel messages of one accepted attempt, in arrival order: the
destination waiter (line 231) sends `\x7bdestOpId: destErr\x7d`, the source
waiter (line 233) sends `\x7bsourceOpId: srcErr\x7d`. -/
def waitMsgs (sourceFirst : Bool) (srcErr destErr : Option String) :
    List (List (Nat × Option String)) :=
  if sourceFirst then
    [[(sourceOpId, srcErr)], [(destOpId, destErr)]]
  else
    [[(destOpId, destErr)], [(sourceOpId, srcErr)]]

/-- The arguments `copy.go` line 222 passes to `dest.MigrateFrom` for
the candidate address `addr`, with `sourceWSUrl = "https://" + addr +
sourceWSResponse.Operation` (line 221). -/
def mkMigrateArgs (destName cert : String) (secrets : ConfigMap) (status : Status)
    (baseImage : String) (eph : Int) (containerOnly : Bool) (wsOp addr : String) :
    MigrateArgs :=
  { destName := destName
    sourceWSUrl := "https://" ++ addr ++ wsOp
    certificate := cert
    secrets := secrets
    architecture := status.architecture
    config := status.config
    devices := status.devices
    profiles := status.profiles
    baseImage := baseImage
    ephemeral := eph == 1
    push := false
    sourceOperation := wsOp
    containerOnly := containerOnly }

/-- Lines 188-197: build the `secrets` map from the source operation's
metadata; every value goes through the unchecked `v.(string)` type
assertion, so a non-string value panics (`none`). -/
def extractSecrets : List (String × MetaVal) → Option ConfigMap
  | [] => some []
  | (k, MetaVal.str s) :: rest =>
    (extractSecrets rest).map (fun m => mapSet m k s)
  | (_, MetaVal.other) :: _ => none

/-- The values fixed across all iterations of the address loop of lines
218-271 (captured by the loop body in the source). -/
structure LoopCtx where
  env : Env
  sourceRemote : String
  destRemote : String
  destName : String
  destResource : String
  status : Status
  baseImage : String
  secrets : ConfigMap
  cert : String
  wsOp : String
  eph : Int
  containerOnly : Bool

/-- The two operation-wait calls of one accepted attempt (lines 230-233),
recorded in channel-arrival order. -/
def attemptWaitEvs (c : LoopCtx) (addr : String) (migration : Response) : Trace :=
  if c.env.sourceArrivesFirst addr then
    [Ev.waitForSuccess c.sourceRemote c.wsOp,
      Ev.waitForSuccess c.destRemote migration.operation]
  else
    [Ev.waitForSuccess c.destRemote migration.operation,
      Ev.waitForSuccess c.sourceRemote c.wsOp]

/-- Lines 218-271: the sequential per-address attempt loop. `acc` is the
running `migrationErrFromClient` (line 217, initially `nil`). The result
is `.inl outcome` when an iteration executes a `return`, and
`.inr migrationErrFromClient` when the list is exhausted. On an accepted
handshake both waiters run; the drained channel gives
`(sourceOpErr, destOpErr)`; `destOpErr != nil` means `continue` (with
`migrationErrFromClient` now `nil`, since the handshake succeeded),
a source error is returned as-is, and otherwise the attempt succeeds,
reporting the created name when no destination resource was given. -/
def migrateLoop (c : LoopCtx) : List String → Option String →
    Trace × Sum Outcome (Option String)
  | [], acc => ([], Sum.inr acc)
  | addr :: rest, _acc =>
    let args := mkMigrateArgs c.destName c.cert c.secrets c.status c.baseImage
      c.eph c.containerOnly c.wsOp addr
    match c.env.migrateFrom c.destRemote args with
    | Except.error e =>
      let r := migrateLoop c rest (some e)
      (Ev.migrateFrom c.destRemote args :: r.1, r.2)
    | Except.ok migration =>
      let destErr := c.env.waitForSuccess c.destRemote migration.operation
      let srcErr := c.env.waitForSuccess c.sourceRemote c.wsOp
      let waits := drainWaitchan (waitMsgs (c.env.sourceArrivesFirst addr) srcErr destErr)
      let waitEvs : Trace := attemptWaitEvs c addr migration
      if waits.2.isSome then
        let r := migrateLoop c rest none
        (Ev.migrateFrom c.destRemote args :: waitEvs ++ r.1, r.2)
      else
        match waits.1 with
        | some e =>
          (Ev.migrateFrom c.destRemote args :: waitEvs,
            Sum.inl (Outcome.err (CopyErr.propagated e)))
        | none =>
          if c.destResource = "" then
            let rep := reportCreatedName migration
            (Ev.migrateFrom c.destRemote args :: waitEvs ++ rep.1,
              Sum.inl (match rep.2 with
                | Except.error ce => Outcome.err ce
                | Except.ok _ => Outcome.ok))
          else
            (Ev.migrateFrom c.destRemote args :: waitEvs, Sum.inl Outcome.ok)

/-- Lines 273-280: the all-addresses-exhausted epilogue. Query the
source operation; when that succeeds and carries a non-empty error
string, report the source-host error with that text, and otherwise
report the target-host error wrapping `migrationErrFromClient`. -/
def migrateFinish (env : Env) (sourceRemote wsOp : String) (acc : Option String) :
    Trace × Outcome :=
  ([Ev.getOperation sourceRemote wsOp],
    match env.getOperation sourceRemote wsOp with
    | Except.ok sourceOp =>
      if sourceOp.opErr ≠ "" then
        Outcome.err (CopyErr.migrationSourceHost sourceOp.opErr)
      else
        Outcome.err (CopyErr.migrationTargetHost acc)
    | Except.error _ => Outcome.err (CopyErr.migrationTargetHost acc))

/-- Lines 170-181: when the caller passed `ephemeral = -1`, read the
source container's current `Ephemeral` field and pin the flag. -/
def resolveEphemeral (env : Env) (sourceRemote sourceName : String)
    (ephemeral : Int) : Trace × Except String Int :=
  if ephemeral == -1 then
    ([Ev.containerInfo sourceRemote sourceName],
      (env.containerInfo sourceRemote sourceName).map
        (fun ct => if ct.ephemeral then 1 else 0))
  else
    ([], Except.ok ephemeral)

/-- Lines 183-281 after the ephemeral flag is pinned: negotiate the
migration session with the source, build the secrets map, discover the
candidate addresses, run the attempt loop, and on exhaustion run the
epilogue. -/
def migrateNegotiate (env : Env)
    (sourceRemote sourceName destRemote destName destResource : String)
    (status : Status) (baseImage : String) (eph : Int)
    (stateful containerOnly : Bool) : Trace × Outcome :=
  match env.getMigrationSourceWS sourceRemote sourceName stateful containerOnly with
  | Except.error e =>
    ([Ev.getMigrationSourceWS sourceRemote sourceName stateful containerOnly],
      Outcome.err (CopyErr.propagated e))
  | Except.ok sourceWSResponse =>
    let ev0 : Trace := [Ev.getMigrationSourceWS sourceRemote sourceName stateful containerOnly]
    match sourceWSResponse.metaOp with
    | Except.error e => (ev0, Outcome.err (CopyErr.propagated e))
    | Except.ok op =>
      match extractSecrets op.metadata with
      | none => (ev0, Outcome.panicked)
      | some secrets =>
        match env.addresses sourceRemote with
        | Except.error e =>
          (ev0 ++ [Ev.addresses sourceRemote], Outcome.err (CopyErr.propagated e))
        | Except.ok addrs =>
          let c : LoopCtx :=
            { env := env
              sourceRemote := sourceRemote
              destRemote := destRemote
              destName := destName
              destResource := destResource
              status := status
              baseImage := baseImage
              secrets := secrets
              cert := env.certificate sourceRemote
              wsOp := sourceWSResponse.operation
              eph := eph
              containerOnly := containerOnly }
          let r := migrateLoop c addrs none
          match r.2 with
          | Sum.inl out => (ev0 ++ [Ev.addresses sourceRemote] ++ r.1, out)
          | Sum.inr acc =>
            let fin := migrateFinish env sourceRemote sourceWSResponse.operation acc
            (ev0 ++ [Ev.addresses sourceRemote] ++ r.1 ++ fin.1, fin.2)

/-- Lines 149-281: the cross-endpoint migration path (after the remotes
were found to differ): destination client, profile compatibility check,
ephemeral resolution, then `migrateNegotiate`. -/
def migratePath (env : Env)
    (sourceRemote sourceName destRemote destName destResource : String)
    (status : Status) (baseImage : String) (ephemeral : Int)
    (stateful containerOnly : Bool) : Trace × Outcome :=
  match env.newClient destRemote with
  | Except.error e => ([], Outcome.err (CopyErr.propagated e))
  | Except.ok _ =>
    match env.listProfiles destRemote with
    | Except.error e =>
      ([Ev.listProfiles destRemote], Outcome.err (CopyErr.propagated e))
    | Except.ok profiles =>
      let destProfs := profiles.foldl (fun acc p => acc ++ [p.name]) []
      if !isSubset status.profiles destProfs then
        ([Ev.listProfiles destRemote], Outcome.err CopyErr.profileMismatch)
      else
        match resolveEphemeral env sourceRemote sourceName ephemeral with
        | (trE, Except.error e) =>
          ([Ev.listProfiles destRemote] ++ trE, Outcome.err (CopyErr.propagated e))
        | (trE, Except.ok eph) =>
          let r := migrateNegotiate env sourceRemote sourceName destRemote destName
            destResource status baseImage eph stateful containerOnly
          ([Ev.listProfiles destRemote] ++ trE ++ r.1, r.2)

/-- Lines 42-281: `copyCmd.copyContainer`. Parse the two locators,
require a source name, default the destination name, build the source
client, resolve the replicable state, and branch on whether the remotes
match into the local-copy path or the migration path. -/
def copyContainer (env : Env) (profArgs : Option (List String))
    (configMap : Option ConfigMap) (sourceResource destResource : String)
    (keepVolatile : Bool) (ephemeral : Int) (stateful containerOnly : Bool) :
    Trace × Outcome :=
  let src := parseRemoteAndContainer env.defaultRemote sourceResource
  let dst := parseRemoteAndContainer env.defaultRemote destResource
  if src.2 = "" then
    ([], Outcome.err CopyErr.mustSpecifySource)
  else
    let destName := defaultDestName src.2 dst.2 destResource
    match env.newClient src.1 with
    | Except.error e => ([], Outcome.err (CopyErr.propagated e))
    | Except.ok _ =>
      match resolveState env profArgs configMap src.1 src.2 keepVolatile with
      | (tr0, Except.error e) => (tr0, Outcome.err (CopyErr.propagated e))
      | (tr0, Except.ok sb) =>
        if src.1 = dst.1 then
          let r := localPath env src.1 src.2 destName destResource sb.1 ephemeral containerOnly
          (tr0 ++ r.1, r.2)
        else
          let r := migratePath env src.1 src.2 dst.1 destName destResource sb.1 sb.2
            ephemeral stateful containerOnly
          (tr0 ++ r.1, r.2)

/-- Lines 283-298: `copyCmd.run`. Requires at least one argument, turns
the boolean `--ephemeral` flag into `0`/`1`, and calls `copyContainer`
with `keepVolatile = false` and `stateful = false`; the destination
resource is the second argument when present and `""` otherwise. -/
def runCmd (env : Env) (profArgs : Option (List String))
    (configMap : Option ConfigMap) (ephemFlag containerOnly : Bool)
    (args : List String) : Trace × Outcome :=
  match args with
  | [] => ([], Outcome.err CopyErr.errArgs)
  | [a0] =>
    copyContainer env profArgs configMap a0 "" false
      (if ephemFlag then 1 else 0) false containerOnly
  | a0 :: a1 :: _ =>
    copyContainer env profArgs configMap a0 a1 false
      (if ephemFlag then 1 else 0) false containerOnly

/-- Event classifier: a `dest.MigrateFrom` handshake attempt. -/
def isMigrateFromEv : Ev → Bool
  | Ev.migrateFrom _ _ => true
  | _ => false

/-- Event classifier: a printed report line. -/
def isPrintEv : Ev → Bool
  | Ev.print _ => true
  | _ => false

/-- Event classifier: a destination profile-catalog fetch. -/
def isListProfilesEv : Ev → Bool
  | Ev.listProfiles _ => true
  | _ => false

/-- Event classifier: a migration-session negotiation with the source. -/
def isSessionEv : Ev → Bool
  | Ev.getMigrationSourceWS _ _ _ _ => true
  | _ => false

/-- Event classifier: a local-copy request. -/
def isLocalCopyEv : Ev → Bool
  | Ev.localCopy _ _ => true
  | _ => false

/-- Event classifier: a source entity/snapshot metadata lookup. -/
def isLookupEv : Ev → Bool
  | Ev.containerInfo _ _ => true
  | Ev.snapshotInfo _ _ => true
  | _ => false

/-- Constraints satisfied by every event the address-attempt loop can
emit: handshake attempts carry exactly the session's fixed arguments
(everything except the per-address URL), waits are unconstrained, and a
report line can only appear when no destination resource was given. -/
def loopEvOk (c : LoopCtx) : Ev → Bool
  | Ev.migrateFrom r a =>
    r == c.destRemote && a.destName == c.destName && a.certificate == c.cert &&
    a.secrets == c.secrets && a.architecture == c.status.architecture &&
    a.config == c.status.config && a.devices == c.status.devices &&
    a.profiles == c.status.profiles && a.baseImage == c.baseImage &&
    a.ephemeral == (c.eph == 1) && a.push == false &&
    a.sourceOperation == c.wsOp && a.containerOnly == c.containerOnly
  | Ev.waitForSuccess _ _ => true
  | Ev.print _ => c.destResource == ""
  | _ => false

/-- Constraints satisfied by every event of the local-copy path. -/
def localEvOk (sourceRemote sourceName destName destResource : String)
    (status : Status) (eph : Int) (co : Bool) : Ev → Bool
  | Ev.localCopy r a =>
    r == sourceRemote && a.srcName == sourceName && a.dstName == destName &&
    a.config == status.config && a.profiles == status.profiles &&
    a.ephemeral == (eph == 1) && a.containerOnly == co
  | Ev.waitForSuccess r _ => r == sourceRemote
  | Ev.print _ => destResource == ""
  | _ => false

/-- Constraints satisfied by every event of the negotiate-and-attempt
stage (lines 183-281). -/
def negEvOk (destRemote destResource : String) (status : Status)
    (baseImage : String) (eph : Int) (co : Bool) : Ev → Bool
  | Ev.migrateFrom r a =>
    r == destRemote && a.config == status.config && a.profiles == status.profiles &&
    a.baseImage == baseImage && a.ephemeral == (eph == 1) && a.containerOnly == co
  | Ev.waitForSuccess _ _ => true
  | Ev.print _ => destResource == ""
  | Ev.getMigrationSourceWS _ _ _ _ => true
  | Ev.addresses _ => true
  | Ev.getOperation _ _ => true
  | _ => false

/-- Every event of `reportCreatedName` is a print. -/
theorem reportCreatedName_trace_shape (resp : Response) :
    ∀ ev ∈ (reportCreatedName resp).1, isPrintEv ev = true := by
  intro ev hev
  unfold reportCreatedName at hev
  rcases hmo : resp.metaOp with e | op
  · simp [hmo] at hev
  · rw [hmo] at hev
    dsimp only at hev
    rcases hfind : op.resources.find? (fun p => p.1 == "containers") with _ | entry
    · simp [hfind] at hev
    · rw [hfind] at hev
      dsimp only at hev
      rcases hent : entry.2 with _ | ⟨c, cs⟩
      · simp [hent] at hev
      · rw [hent] at hev
        simp at hev
        subst hev
        rfl

/-- The state-resolution trace is a single source lookup. -/
theorem resolveState_trace_shape (env : Env) (profArgs : Option (List String))
    (configMap : Option ConfigMap) (sourceRemote sourceName : String)
    (keepVolatile : Bool) :
    (resolveState env profArgs configMap sourceRemote sourceName keepVolatile).1 =
        [Ev.containerInfo sourceRemote sourceName]
    ∨ (resolveState env profArgs configMap sourceRemote sourceName keepVolatile).1 =
        [Ev.snapshotInfo sourceRemote sourceName] := by
  unfold resolveState lookupStatus
  rcases hsnap : IsSnapshot sourceName with _ | _ <;> simp only [hsnap, if_true, if_false,
    Bool.false_eq_true]
  · rcases env.containerInfo sourceRemote sourceName with e | st <;> simp [Except.map]
  · rcases env.snapshotInfo sourceRemote sourceName with e | st <;> simp [Except.map]

/-- The ephemeral-resolution trace is empty or a single source lookup. -/
theorem resolveEphemeral_trace_shape (env : Env) (sourceRemote sourceName : String)
    (ephemeral : Int) :
    (resolveEphemeral env sourceRemote sourceName ephemeral).1 = []
    ∨ (resolveEphemeral env sourceRemote sourceName ephemeral).1 =
        [Ev.containerInfo sourceRemote sourceName] := by
  unfold resolveEphemeral
  rcases heph : ephemeral == -1 with _ | _ <;> simp

/-- Draining the two-slot channel always yields `(srcErr, none)`,
whatever the arrival order: the source waiter's error is dispatched by
the `ok` flag of `tmp[sourceOpId]`, while the destination waiter's
message misses that key and stores the zero value `nil` into
`destOpErr`. This is the silent loss of the destination wait error in
lines 237-245 of the source. -/
theorem drainWaitchan_waitMsgs (b : Bool) (srcErr destErr : Option String) :
    drainWaitchan (waitMsgs b srcErr destErr) = (srcErr, none) := by
  rcases b with _ | _ <;>
    simp [drainWaitchan, waitMsgs, goMapRead, sourceOpId, destOpId, List.find?]

/-- Every event of `attemptWaitEvs` is an operation wait. -/
theorem attemptWaitEvs_shape (c : LoopCtx) (addr : String) (m : Response) :
    ∀ ev ∈ attemptWaitEvs c addr m, ∃ r o, ev = Ev.waitForSuccess r o := by
  intro ev hev
  unfold attemptWaitEvs at hev
  rcases hb : c.env.sourceArrivesFirst addr with _ | _ <;> simp [hb] at hev <;>
    rcases hev with h | h <;> exact ⟨_, _, h⟩

/-- One unfolding step of the attempt loop, with the channel drain
already evaluated (`drainWaitchan_waitMsgs`): the destination wait error
can never be observed, so an accepted handshake decides on the source
wait alone. -/
theorem migrateLoop_cons (c : LoopCtx) (addr : String) (rest : List String)
    (acc : Option String) :
    migrateLoop c (addr :: rest) acc =
      match c.env.migrateFrom c.destRemote
          (mkMigrateArgs c.destName c.cert c.secrets c.status c.baseImage c.eph
            c.containerOnly c.wsOp addr) with
      | Except.error e =>
        (Ev.migrateFrom c.destRemote
            (mkMigrateArgs c.destName c.cert c.secrets c.status c.baseImage c.eph
              c.containerOnly c.wsOp addr) :: (migrateLoop c rest (some e)).1,
          (migrateLoop c rest (some e)).2)
      | Except.ok migration =>
        match c.env.waitForSuccess c.sourceRemote c.wsOp with
        | some e =>
          (Ev.migrateFrom c.destRemote
              (mkMigrateArgs c.destName c.cert c.secrets c.status c.baseImage c.eph
                c.containerOnly c.wsOp addr) :: attemptWaitEvs c addr migration,
            Sum.inl (Outcome.err (CopyErr.propagated e)))
        | none =>
          if c.destResource = "" then
            (Ev.migrateFrom c.destRemote
                (mkMigrateArgs c.destName c.cert c.secrets c.status c.baseImage c.eph
                  c.containerOnly c.wsOp addr) :: attemptWaitEvs c addr migration ++
                (reportCreatedName migration).1,
              Sum.inl (match (reportCreatedName migration).2 with
                | Except.error ce => Outcome.err ce
                | Except.ok _ => Outcome.ok))
          else
            (Ev.migrateFrom c.destRemote
                (mkMigrateArgs c.destName c.cert c.secrets c.status c.baseImage c.eph
                  c.containerOnly c.wsOp addr) :: attemptWaitEvs c addr migration,
              Sum.inl Outcome.ok) := by
  rcases hmf : c.env.migrateFrom c.destRemote
      (mkMigrateArgs c.destName c.cert c.secrets c.status c.baseImage c.eph
        c.containerOnly c.wsOp addr) with e | migration <;>
    simp only [migrateLoop, hmf, drainWaitchan_waitMsgs, Option.isSome_none,
      Bool.false_eq_true, if_false]

/-- Every event emitted by the address-attempt loop satisfies
`loopEvOk`. -/
theorem migrateLoop_evOk (c : LoopCtx) (addrs : List String) (acc : Option String) :
    ∀ ev ∈ (migrateLoop c addrs acc).1, loopEvOk c ev = true := by
  induction addrs generalizing acc with
  | nil => intro ev hev; simp [migrateLoop] at hev
  | cons addr rest ih =>
    intro ev hev
    rw [migrateLoop_cons] at hev
    rcases hmf : c.env.migrateFrom c.destRemote
        (mkMigrateArgs c.destName c.cert c.secrets c.status c.baseImage c.eph
          c.containerOnly c.wsOp addr) with e | migration
    · rw [hmf] at hev
      dsimp only at hev
      simp only [List.mem_cons] at hev
      rcases hev with heq | hmem
      · subst heq; simp [loopEvOk, mkMigrateArgs]
      · exact ih (some e) ev hmem
    · rw [hmf] at hev
      dsimp only at hev
      rcases hsw : c.env.waitForSuccess c.sourceRemote c.wsOp with _ | e
      · rw [hsw] at hev
        dsimp only at hev
        by_cases hdr : c.destResource = ""
        · rw [if_pos hdr] at hev
          simp only [List.mem_cons, List.mem_append] at hev
          rcases hev with (heq | hwait) | hrep
          · subst heq; simp [loopEvOk, mkMigrateArgs]
          · obtain ⟨r, o, rfl⟩ := attemptWaitEvs_shape c addr migration ev hwait
            rfl
          · have hp := reportCreatedName_trace_shape migration ev hrep
            rcases ev with _ | _ | _ | _ | _ | _ | _ | _ | _ | s <;>
              simp [isPrintEv] at hp
            simp [loopEvOk, hdr]
        · rw [if_neg hdr] at hev
          simp only [List.mem_cons] at hev
          rcases hev with heq | hwait
          · subst heq; simp [loopEvOk, mkMigrateArgs]
          · obtain ⟨r, o, rfl⟩ := attemptWaitEvs_shape c addr migration ev hwait
            rfl
      · rw [hsw] at hev
        dsimp only at hev
        simp only [List.mem_cons] at hev
        rcases hev with heq | hwait
        · subst heq; simp [loopEvOk, mkMigrateArgs]
        · obtain ⟨r, o, rfl⟩ := attemptWaitEvs_shape c addr migration ev hwait
          rfl

/-- Every event of the local-copy path satisfies `localEvOk`. -/
theorem localPath_evOk (env : Env) (sourceRemote sourceName destName destResource : String)
    (status : Status) (eph : Int) (co : Bool) :
    ∀ ev ∈ (localPath env sourceRemote sourceName destName destResource status eph co).1,
      localEvOk sourceRemote sourceName destName destResource status eph co ev = true := by
  intro ev hev
  unfold localPath at hev
  by_cases hnm : sourceName = destName
  · rw [if_pos hnm] at hev; simp at hev
  · rw [if_neg hnm] at hev
    dsimp only at hev
    rcases hlc : env.localCopy sourceRemote
        ⟨sourceName, destName, status.config, status.profiles, eph == 1, co⟩ with e | cp
    · rw [hlc] at hev
      dsimp only at hev
      simp at hev
      subst hev
      simp [localEvOk]
    · rw [hlc] at hev
      dsimp only at hev
      rcases hw : env.waitForSuccess sourceRemote cp.operation with _ | e
      · rw [hw] at hev
        dsimp only at hev
        by_cases hdr : destResource = ""
        · rw [if_pos hdr] at hev
          simp only [List.mem_append, List.mem_cons, List.not_mem_nil, or_false] at hev
          rcases hev with (heq | heq) | hrep
          · subst heq; simp [localEvOk]
          · subst heq; simp [localEvOk]
          · have hp := reportCreatedName_trace_shape cp ev hrep
            rcases ev with _ | _ | _ | _ | _ | _ | _ | _ | _ | s <;>
              simp [isPrintEv] at hp
            simp [localEvOk, hdr]
        · rw [if_neg hdr] at hev
          simp only [List.mem_cons, List.not_mem_nil, or_false] at hev
          rcases hev with heq | heq <;> subst heq <;> simp [localEvOk]
      · rw [hw] at hev
        dsimp only at hev
        simp only [List.mem_cons, List.not_mem_nil, or_false] at hev
        rcases hev with heq | heq <;> subst heq <;> simp [localEvOk]

/-- Loop events seen from the negotiate stage: `loopEvOk` implies
`negEvOk` for the context the loop was started with. -/
theorem loopEvOk_negEvOk (c : LoopCtx) (ev : Ev) (h : loopEvOk c ev = true) :
    negEvOk c.destRemote c.destResource c.status c.baseImage c.eph c.containerOnly ev = true := by
  cases ev <;> simp_all [loopEvOk, negEvOk]

/-- Every event of the negotiate-and-attempt stage satisfies `negEvOk`. -/
theorem migrateNegotiate_evOk (env : Env)
    (sourceRemote sourceName destRemote destName destResource : String)
    (status : Status) (baseImage : String) (eph : Int) (stateful co : Bool) :
    ∀ ev ∈ (migrateNegotiate env sourceRemote sourceName destRemote destName destResource
        status baseImage eph stateful co).1,
      negEvOk destRemote destResource status baseImage eph co ev = true := by
  intro ev hev
  unfold migrateNegotiate at hev
  rcases hws : env.getMigrationSourceWS sourceRemote sourceName stateful co with e | ws
  · rw [hws] at hev; dsimp only at hev
    simp at hev; subst hev; rfl
  · rw [hws] at hev; dsimp only at hev
    rcases hmo : ws.metaOp with e | op
    · rw [hmo] at hev; dsimp only at hev
      simp at hev; subst hev; rfl
    · rw [hmo] at hev; dsimp only at hev
      rcases hsec : extractSecrets op.metadata with _ | secrets
      · rw [hsec] at hev; dsimp only at hev
        simp at hev; subst hev; rfl
      · rw [hsec] at hev; dsimp only at hev
        rcases haddr : env.addresses sourceRemote with e | addrs
        · rw [haddr] at hev; dsimp only at hev
          simp at hev
          rcases hev with heq | heq <;> subst heq <;> rfl
        · rw [haddr] at hev
          dsimp only at hev
          rcases hloop : (migrateLoop
              { env := env, sourceRemote := sourceRemote, destRemote := destRemote,
                destName := destName, destResource := destResource, status := status,
                baseImage := baseImage, secrets := secrets,
                cert := env.certificate sourceRemote, wsOp := ws.operation, eph := eph,
                containerOnly := co } addrs none).2 with out | acc
          · rw [hloop] at hev
            dsimp only at hev
            simp only [List.mem_append, List.mem_cons, List.not_mem_nil, or_false] at hev
            rcases hev with (heq | heq) | hloopmem
            · subst heq; rfl
            · subst heq; rfl
            · exact loopEvOk_negEvOk _ ev (migrateLoop_evOk _ addrs none ev hloopmem)
          · rw [hloop] at hev
            dsimp only at hev
            simp only [List.mem_append, List.mem_cons, List.not_mem_nil, or_false,
              migrateFinish] at hev
            rcases hev with ((heq | heq) | hloopmem) | heq
            · subst heq; rfl
            · subst heq; rfl
            · exact loopEvOk_negEvOk _ ev (migrateLoop_evOk _ addrs none ev hloopmem)
            · subst heq; rfl

/-- Constraints satisfied by every event of the whole migration path
(lines 149-281): no local copy, no second profile fetch, prints only
without a destination resource, and handshake arguments built from the
resolved state. -/
def pathEvOk (sourceRemote destRemote destResource : String) (status : Status)
    (baseImage : String) (co : Bool) : Ev → Bool
  | Ev.migrateFrom r a =>
    r == destRemote && a.config == status.config && a.profiles == status.profiles &&
    a.baseImage == baseImage && a.containerOnly == co
  | Ev.localCopy _ _ => false
  | Ev.print _ => destResource == ""
  | Ev.containerInfo r _ => r == sourceRemote
  | Ev.snapshotInfo _ _ => false
  | Ev.listProfiles r => r == destRemote
  | Ev.waitForSuccess _ _ => true
  | Ev.getMigrationSourceWS _ _ _ _ => true
  | Ev.addresses _ => true
  | Ev.getOperation _ _ => true

/-- Every event of the migration path satisfies `pathEvOk`. -/
theorem migratePath_evOk (env : Env)
    (sourceRemote sourceName destRemote destName destResource : String)
    (status : Status) (baseImage : String) (ephemeral : Int) (stateful co : Bool) :
    ∀ ev ∈ (migratePath env sourceRemote sourceName destRemote destName destResource
        status baseImage ephemeral stateful co).1,
      pathEvOk sourceRemote destRemote destResource status baseImage co ev = true := by
  intro ev hev
  unfold migratePath at hev
  rcases hnc : env.newClient destRemote with e | u
  · rw [hnc] at hev; simp at hev
  · rw [hnc] at hev; dsimp only at hev
    rcases hlp : env.listProfiles destRemote with e | profiles
    · rw [hlp] at hev; dsimp only at hev
      simp at hev; subst hev; simp [pathEvOk]
    · rw [hlp] at hev; dsimp only at hev
      rcases hsub : isSubset status.profiles
          (profiles.foldl (fun acc p => acc ++ [p.name]) []) with _ | _
      · rw [hsub] at hev
        simp at hev
        subst hev; simp [pathEvOk]
      · rw [hsub] at hev
        simp only [Bool.not_true, Bool.false_eq_true, if_false] at hev
        rcases hre : resolveEphemeral env sourceRemote sourceName ephemeral with ⟨trE, re⟩
        rw [hre] at hev
        have hsh2 : trE = [] ∨ trE = [Ev.containerInfo sourceRemote sourceName] := by
          have := resolveEphemeral_trace_shape env sourceRemote sourceName ephemeral
          rw [hre] at this
          exact this
        rcases re with e | eph
        · simp only [List.mem_append, List.mem_cons, List.not_mem_nil, or_false] at hev
          rcases hev with heq | htrE
          · subst heq; simp [pathEvOk]
          · rcases hsh2 with hsh | hsh <;> rw [hsh] at htrE
            · simp at htrE
            · simp at htrE; subst htrE; simp [pathEvOk]
        · simp only [List.mem_append, List.mem_cons, List.not_mem_nil, or_false] at hev
          rcases hev with (heq | htrE) | hneg
          · subst heq; simp [pathEvOk]
          · rcases hsh2 with hsh | hsh <;> rw [hsh] at htrE
            · simp at htrE
            · simp at htrE; subst htrE; simp [pathEvOk]
          · have hn := migrateNegotiate_evOk env sourceRemote sourceName destRemote destName
              destResource status baseImage eph stateful co ev hneg
            cases ev <;> simp_all [negEvOk, pathEvOk]

/-- The lookup trace is one containerInfo or one snapshotInfo event. -/
theorem lookupStatus_trace_shape (env : Env) (sourceRemote sourceName : String) :
    (lookupStatus env sourceRemote sourceName).1 = [Ev.containerInfo sourceRemote sourceName]
    ∨ (lookupStatus env sourceRemote sourceName).1 =
        [Ev.snapshotInfo sourceRemote sourceName] := by
  unfold lookupStatus
  rcases hsnap : IsSnapshot sourceName with _ | _ <;> simp [hsnap]

/-- The state-resolution trace is exactly the lookup trace. -/
theorem resolveState_fst (env : Env) (profArgs : Option (List String))
    (configMap : Option ConfigMap) (sourceRemote sourceName : String) (keepVolatile : Bool) :
    (resolveState env profArgs configMap sourceRemote sourceName keepVolatile).1 =
      (lookupStatus env sourceRemote sourceName).1 := by
  unfold resolveState
  rcases hl : lookupStatus env sourceRemote sourceName with ⟨tr, r⟩
  rcases r with e | st <;> simp

/-- When the lookup succeeds, `resolveState` merges the profile and
config overrides, reads the base image from the merged config, and
strips the volatile keys unless they are kept. -/
theorem resolveState_eq_of_lookup (env : Env) (profArgs : Option (List String))
    (configMap : Option ConfigMap) (sourceRemote sourceName : String)
    (keepVolatile : Bool) (st0 : Status)
    (h : (lookupStatus env sourceRemote sourceName).2 = Except.ok st0) :
    resolveState env profArgs configMap sourceRemote sourceName keepVolatile =
      ((lookupStatus env sourceRemote sourceName).1,
        Except.ok
          (if keepVolatile then applyConfigMap configMap (applyProfArgs profArgs st0)
            else stripVolatile (applyConfigMap configMap (applyProfArgs profArgs st0)),
            mapGet (applyConfigMap configMap (applyProfArgs profArgs st0)).config
              "volatile.base_image")) := by
  unfold resolveState
  rcases hl : lookupStatus env sourceRemote sourceName with ⟨tr, r⟩
  rw [hl] at h
  dsimp only at h
  subst h
  rfl

/-- Reduction of `copyContainer` to the migration path, given parsed
locators with distinct remotes, a non-empty source name, a working
source client, and a successful state resolution. -/
theorem copyContainer_migrate_reduction (env : Env) (profArgs : Option (List String))
    (configMap : Option ConfigMap) (sourceResource destResource : String)
    (keepVolatile : Bool) (ephemeral : Int) (stateful co : Bool)
    (sr sn dr dn : String) (sb : Status × String)
    (hsrc : parseRemoteAndContainer env.defaultRemote sourceResource = (sr, sn))
    (hdst : parseRemoteAndContainer env.defaultRemote destResource = (dr, dn))
    (hsn : sn ≠ "")
    (hneq : sr ≠ dr)
    (hnc : env.newClient sr = Except.ok ())
    (hres : (resolveState env profArgs configMap sr sn keepVolatile).2 = Except.ok sb) :
    copyContainer env profArgs configMap sourceResource destResource keepVolatile
        ephemeral stateful co =
      ((resolveState env profArgs configMap sr sn keepVolatile).1 ++
          (migratePath env sr sn dr (defaultDestName sn dn destResource) destResource
            sb.1 sb.2 ephemeral stateful co).1,
        (migratePath env sr sn dr (defaultDestName sn dn destResource) destResource
          sb.1 sb.2 ephemeral stateful co).2) := by
  unfold copyContainer
  rw [hsrc, hdst]
  dsimp only
  rw [if_neg hsn, hnc]
  dsimp only
  rcases hres2 : resolveState env profArgs configMap sr sn keepVolatile with ⟨tr0, r⟩
  rw [hres2] at hres
  dsimp only at hres
  subst hres
  dsimp only
  rw [if_neg hneq]

/-- Reduction of `copyContainer` to the local-copy path, given parsed
locators with equal remotes, a non-empty source name, a working source
client, and a successful state resolution. -/
theorem copyContainer_local_reduction (env : Env) (profArgs : Option (List String))
    (configMap : Option ConfigMap) (sourceResource destResource : String)
    (keepVolatile : Bool) (ephemeral : Int) (stateful co : Bool)
    (sr sn dn : String) (sb : Status × String)
    (hsrc : parseRemoteAndContainer env.defaultRemote sourceResource = (sr, sn))
    (hdst : parseRemoteAndContainer env.defaultRemote destResource = (sr, dn))
    (hsn : sn ≠ "")
    (hnc : env.newClient sr = Except.ok ())
    (hres : (resolveState env profArgs configMap sr sn keepVolatile).2 = Except.ok sb) :
    copyContainer env profArgs configMap sourceResource destResource keepVolatile
        ephemeral stateful co =
      ((resolveState env profArgs configMap sr sn keepVolatile).1 ++
          (localPath env sr sn (defaultDestName sn dn destResource) destResource
            sb.1 ephemeral co).1,
        (localPath env sr sn (defaultDestName sn dn destResource) destResource
          sb.1 ephemeral co).2) := by
  unfold copyContainer
  rw [hsrc, hdst]
  dsimp only
  rw [if_neg hsn, hnc]
  dsimp only
  rcases hres2 : resolveState env profArgs configMap sr sn keepVolatile with ⟨tr0, r⟩
  rw [hres2] at hres
  dsimp only at hres
  subst hres
  dsimp only
  rw [if_pos rfl]

/-- Reduction of the migration path to the negotiate stage, given a
working destination client, a successful profile fetch, a compatible
profile set and a successful ephemeral resolution. -/
theorem migratePath_reduction (env : Env)
    (sourceRemote sourceName destRemote destName destResource : String)
    (status : Status) (baseImage : String) (ephemeral : Int) (stateful co : Bool)
    (profs : List Profile) (trE : Trace) (eph : Int)
    (hnc : env.newClient destRemote = Except.ok ())
    (hlp : env.listProfiles destRemote = Except.ok profs)
    (hsub : isSubset status.profiles (profs.foldl (fun acc p => acc ++ [p.name]) []) = true)
    (hre : resolveEphemeral env sourceRemote sourceName ephemeral = (trE, Except.ok eph)) :
    migratePath env sourceRemote sourceName destRemote destName destResource status
        baseImage ephemeral stateful co =
      ([Ev.listProfiles destRemote] ++ trE ++
          (migrateNegotiate env sourceRemote sourceName destRemote destName destResource
            status baseImage eph stateful co).1,
        (migrateNegotiate env sourceRemote sourceName destRemote destName destResource
          status baseImage eph stateful co).2) := by
  unfold migratePath
  rw [hnc]
  dsimp only
  rw [hlp]
  dsimp only
  rw [hsub]
  simp only [Bool.not_true, Bool.false_eq_true, if_false]
  rw [hre]

/-- Reduction of the negotiate stage when the attempt loop executes an
early return. -/
theorem migrateNegotiate_reduction_inl (env : Env)
    (sourceRemote sourceName destRemote destName destResource : String)
    (status : Status) (baseImage : String) (eph : Int) (stateful co : Bool)
    (ws : Response) (op : Operation) (secrets : ConfigMap) (addrs : List String)
    (out : Outcome)
    (hws : env.getMigrationSourceWS sourceRemote sourceName stateful co = Except.ok ws)
    (hmo : ws.metaOp = Except.ok op)
    (hsec : extractSecrets op.metadata = some secrets)
    (haddr : env.addresses sourceRemote = Except.ok addrs)
    (hloop : (migrateLoop
        { env := env, sourceRemote := sourceRemote, destRemote := destRemote,
          destName := destName, destResource := destResource, status := status,
          baseImage := baseImage, secrets := secrets,
          cert := env.certificate sourceRemote, wsOp := ws.operation, eph := eph,
          containerOnly := co } addrs none).2 = Sum.inl out) :
    migrateNegotiate env sourceRemote sourceName destRemote destName destResource
        status baseImage eph stateful co =
      ([Ev.getMigrationSourceWS sourceRemote sourceName stateful co] ++
          [Ev.addresses sourceRemote] ++
          (migrateLoop
            { env := env, sourceRemote := sourceRemote, destRemote := destRemote,
              destName := destName, destResource := destResource, status := status,
              baseImage := baseImage, secrets := secrets,
              cert := env.certificate sourceRemote, wsOp := ws.operation, eph := eph,
              containerOnly := co } addrs none).1,
        out) := by
  unfold migrateNegotiate
  rw [hws]
  dsimp only
  rw [hmo]
  dsimp only
  rw [hsec]
  dsimp only
  rw [haddr]
  dsimp only
  rw [hloop]

/-- Reduction of the negotiate stage when the attempt loop exhausts the
address list: the epilogue queries the source operation status. -/
theorem migrateNegotiate_reduction_inr (env : Env)
    (sourceRemote sourceName destRemote destName destResource : String)
    (status : Status) (baseImage : String) (eph : Int) (stateful co : Bool)
    (ws : Response) (op : Operation) (secrets : ConfigMap) (addrs : List String)
    (acc : Option String)
    (hws : env.getMigrationSourceWS sourceRemote sourceName stateful co = Except.ok ws)
    (hmo : ws.metaOp = Except.ok op)
    (hsec : extractSecrets op.metadata = some secrets)
    (haddr : env.addresses sourceRemote = Except.ok addrs)
    (hloop : (migrateLoop
        { env := env, sourceRemote := sourceRemote, destRemote := destRemote,
          destName := destName, destResource := destResource, status := status,
          baseImage := baseImage, secrets := secrets,
          cert := env.certificate sourceRemote, wsOp := ws.operation, eph := eph,
          containerOnly := co } addrs none).2 = Sum.inr acc) :
    (migrateNegotiate env sourceRemote sourceName destRemote destName destResource
        status baseImage eph stateful co).2 =
      (migrateFinish env sourceRemote ws.operation acc).2 := by
  unfold migrateNegotiate
  rw [hws]
  dsimp only
  rw [hmo]
  dsimp only
  rw [hsec]
  dsimp only
  rw [haddr]
  dsimp only
  rw [hloop]

/-- When every handshake in the list fails, the loop exhausts the list
and hands the epilogue the last handshake error. -/
theorem migrateLoop_all_fail (c : LoopCtx) (f : String → String)
    (pre : List String) (lastA : String) :
    (∀ a ∈ pre ++ [lastA],
      c.env.migrateFrom c.destRemote
        (mkMigrateArgs c.destName c.cert c.secrets c.status c.baseImage c.eph
          c.containerOnly c.wsOp a) = Except.error (f a)) →
    ∀ acc, (migrateLoop c (pre ++ [lastA]) acc).2 = Sum.inr (some (f lastA)) := by
  induction pre with
  | nil =>
    intro hfail acc
    have hlast := hfail lastA (by simp)
    rw [List.nil_append, migrateLoop_cons, hlast]
    dsimp only
    simp [migrateLoop]
  | cons a pre ih =>
    intro hfail acc
    have ha := hfail a (by simp)
    rw [List.cons_append, migrateLoop_cons, ha]
    dsimp only
    exact ih (fun x hx => hfail x (by simp [hx])) (some (f a))

/-- When the first addresses fail the handshake and the next address is
accepted with a clean source wait, the loop returns success (with a
non-empty destination resource) after exactly one handshake per
address, in list order. -/
theorem migrateLoop_pre_fail_succeed (c : LoopCtx) (f : String → String)
    (pre : List String) (aN : String) (resp : Response)
    (hpre : ∀ a ∈ pre,
      c.env.migrateFrom c.destRemote
        (mkMigrateArgs c.destName c.cert c.secrets c.status c.baseImage c.eph
          c.containerOnly c.wsOp a) = Except.error (f a))
    (hN : c.env.migrateFrom c.destRemote
        (mkMigrateArgs c.destName c.cert c.secrets c.status c.baseImage c.eph
          c.containerOnly c.wsOp aN) = Except.ok resp)
    (hdw : c.env.waitForSuccess c.destRemote resp.operation = none)
    (hsw : c.env.waitForSuccess c.sourceRemote c.wsOp = none)
    (hdr : c.destResource ≠ "") :
    ∀ acc, (migrateLoop c (pre ++ [aN]) acc).2 = Sum.inl Outcome.ok
      ∧ (migrateLoop c (pre ++ [aN]) acc).1.filter isMigrateFromEv =
          (pre ++ [aN]).map (fun a => Ev.migrateFrom c.destRemote
            (mkMigrateArgs c.destName c.cert c.secrets c.status c.baseImage c.eph
              c.containerOnly c.wsOp a)) := by
  induction pre with
  | nil =>
    intro acc
    rw [List.nil_append, migrateLoop_cons, hN]
    dsimp only
    rw [hsw]
    dsimp only
    rw [if_neg hdr]
    constructor
    · rfl
    · dsimp only
      rw [List.filter_cons]
      simp only [isMigrateFromEv, if_true]
      have hw : (attemptWaitEvs c aN resp).filter isMigrateFromEv = [] := by
        rw [List.filter_eq_nil_iff]
        intro ev hev
        obtain ⟨r, o, rfl⟩ := attemptWaitEvs_shape c aN resp ev hev
        simp [isMigrateFromEv]
      simp [hw]
  | cons a pre ih =>
    intro acc
    have ha := hpre a (by simp)
    rw [List.cons_append, migrateLoop_cons, ha]
    dsimp only
    obtain ⟨h1, h2⟩ := ih (fun x hx => hpre x (by simp [hx])) (some (f a))
    refine ⟨h1, ?_⟩
    rw [List.filter_cons]
    simp only [isMigrateFromEv, if_true]
    rw [h2]
    simp

/-- The migration path stops with the profile-mismatch error, after the
single catalog fetch, when some source profile is missing. -/
theorem migratePath_mismatch (env : Env)
    (sourceRemote sourceName destRemote destName destResource : String)
    (status : Status) (baseImage : String) (ephemeral : Int) (stateful co : Bool)
    (profs : List Profile)
    (hnc : env.newClient destRemote = Except.ok ())
    (hlp : env.listProfiles destRemote = Except.ok profs)
    (hsub : isSubset status.profiles (profs.foldl (fun acc p => acc ++ [p.name]) []) = false) :
    migratePath env sourceRemote sourceName destRemote destName destResource status
        baseImage ephemeral stateful co =
      ([Ev.listProfiles destRemote], Outcome.err CopyErr.profileMismatch) := by
  unfold migratePath
  rw [hnc]
  dsimp only
  rw [hlp]
  dsimp only
  rw [hsub]
  simp

/-- After the volatile strip, no remaining config key has the volatile
prefix. -/
theorem stripVolatile_config_all (st : Status) :
    ((stripVolatile st).config.all fun kvp => !strHasPrefix kvp.1 "volatile") = true := by
  rw [List.all_eq_true]
  intro kvp hkvp
  exact (List.mem_filter.mp hkvp).2

/-- Case analysis on a whole `copyContainer` trace: it is empty, just
the source lookup, or the source lookup followed by the local-copy path
or by the migration path over the resolved state. -/
theorem copyContainer_trace_cases (env : Env) (p : Option (List String))
    (cm : Option ConfigMap) (srcR dstR : String) (kV : Bool) (eph : Int) (st co : Bool) :
    (copyContainer env p cm srcR dstR kV eph st co).1 = []
    ∨ (∃ sr sn, parseRemoteAndContainer env.defaultRemote srcR = (sr, sn) ∧
        (copyContainer env p cm srcR dstR kV eph st co).1 = (lookupStatus env sr sn).1)
    ∨ (∃ sr sn dn sb, parseRemoteAndContainer env.defaultRemote srcR = (sr, sn) ∧
        parseRemoteAndContainer env.defaultRemote dstR = (sr, dn) ∧
        (resolveState env p cm sr sn kV).2 = Except.ok sb ∧
        (copyContainer env p cm srcR dstR kV eph st co).1 =
          (lookupStatus env sr sn).1 ++
            (localPath env sr sn (defaultDestName sn dn dstR) dstR sb.1 eph co).1)
    ∨ (∃ sr sn dr dn sb, parseRemoteAndContainer env.defaultRemote srcR = (sr, sn) ∧
        parseRemoteAndContainer env.defaultRemote dstR = (dr, dn) ∧ sr ≠ dr ∧
        (resolveState env p cm sr sn kV).2 = Except.ok sb ∧
        (copyContainer env p cm srcR dstR kV eph st co).1 =
          (lookupStatus env sr sn).1 ++
            (migratePath env sr sn dr (defaultDestName sn dn dstR) dstR sb.1 sb.2
              eph st co).1) := by
  rcases hsrc : parseRemoteAndContainer env.defaultRemote srcR with ⟨sr, sn⟩
  rcases hdst : parseRemoteAndContainer env.defaultRemote dstR with ⟨dr, dn⟩
  by_cases hsn : sn = ""
  · left
    unfold copyContainer
    rw [hsrc]
    dsimp only
    rw [if_pos hsn]
  · rcases hnc : env.newClient sr with e | u
    · left
      unfold copyContainer
      rw [hsrc]
      dsimp only
      rw [if_neg hsn, hnc]
    · cases u
      rcases hres2 : resolveState env p cm sr sn kV with ⟨tr0, r⟩
      have htr0 : tr0 = (lookupStatus env sr sn).1 := by
        have := resolveState_fst env p cm sr sn kV
        rw [hres2] at this
        exact this
      rcases r with e | sb
      · right; left
        refine ⟨sr, sn, rfl, ?_⟩
        unfold copyContainer
        rw [hsrc, hdst]
        dsimp only
        rw [if_neg hsn, hnc]
        dsimp only
        rw [hres2]
        dsimp only
        exact htr0
      · by_cases heq : sr = dr
        · right; right; left
          subst heq
          refine ⟨sr, sn, dn, sb, rfl, rfl, ?_, ?_⟩
          · rw [hres2]
          · rw [copyContainer_local_reduction env p cm srcR dstR kV eph st co sr sn dn sb
              hsrc hdst hsn hnc (by rw [hres2])]
            dsimp only
            rw [resolveState_fst]
        · right; right; right
          refine ⟨sr, sn, dr, dn, sb, rfl, rfl, heq, ?_, ?_⟩
          · rw [hres2]
          · rw [copyContainer_migrate_reduction env p cm srcR dstR kV eph st co sr sn dr dn sb
              hsrc hdst hsn heq hnc (by rw [hres2])]
            dsimp only
            rw [resolveState_fst]

/-- Lookup traces contain no send, report, session, or catalog events. -/
theorem lookupStatus_filter_empty (env : Env) (sourceRemote sourceName : String)
    (pred : Ev → Bool)
    (hc : ∀ r n, pred (Ev.containerInfo r n) = false)
    (hs : ∀ r n, pred (Ev.snapshotInfo r n) = false) :
    (lookupStatus env sourceRemote sourceName).1.filter pred = [] := by
  rcases lookupStatus_trace_shape env sourceRemote sourceName with h | h <;>
    rw [h] <;> simp [hc, hs]

/-! Concrete collaborator environments used by counterexamples and
witnesses. `happyEnv` describes a world where every call succeeds: the
source container exists with one volatile and one plain config key, the
session handshake is accepted at the single candidate address, and both
side waits succeed. Scenario environments below override single fields. -/

/-- A source container with a base image recorded under the volatile key. -/
def srcState : ContainerState :=
  { architecture := "x86_64"
    devices := []
    config := [("volatile.base_image", "img1"), ("user.a", "v")]
    profiles := []
    ephemeral := true }

/-- The source migration websocket response: one secret in the metadata. -/
def wsResp : Response :=
  { operation := "/op/ws"
    metaOp := Except.ok { resources := [], metadata := [("fs", MetaVal.str "sec1")], opErr := "" } }

/-- A completed operation whose resources name the created container. -/
def doneResp : Response :=
  { operation := "/op/done"
    metaOp := Except.ok
      { resources := [("containers", ["/1.0/containers/newc"])], metadata := [], opErr := "" } }

/-- The all-succeeding collaborator world. -/
def happyEnv : Env :=
  { defaultRemote := "local"
    newClient := fun _ => Except.ok ()
    containerInfo := fun _ _ => Except.ok srcState
    snapshotInfo := fun _ _ => Except.ok srcState
    localCopy := fun _ _ => Except.ok doneResp
    waitForSuccess := fun _ _ => none
    listProfiles := fun _ => Except.ok []
    getMigrationSourceWS := fun _ _ _ _ => Except.ok wsResp
    certificate := fun _ => "cert"
    addresses := fun _ => Except.ok ["addr1"]
    migrateFrom := fun _ _ => Except.ok doneResp
    getOperation := fun _ _ => Except.ok { resources := [], metadata := [], opErr := "" }
    sourceArrivesFirst := fun _ => true }



/-- A world where the destination-side wait fails while everything else
succeeds; the source operation status also reports an error text. -/
def destWaitFailEnv : Env :=
  { happyEnv with
    addresses := fun _ => Except.ok ["addr1", "addr2"]
    waitForSuccess := fun remote _ => if remote == "r2" then some "dest wait failed" else none
    getOperation := fun _ _ =>
      Except.ok { resources := [], metadata := [], opErr := "source detected failure" } }


/-- A world where every handshake attempt is rejected. -/
def handshakeFailEnv : Env :=
  { happyEnv with
    addresses := fun _ => Except.ok ["addr1", "addr2"]
    migrateFrom := fun _ args => Except.error ("bad handshake " ++ args.sourceWSUrl) }






/-- A world whose migration-session metadata carries a non-string value
(on which the `v.(string)` type assertion panics). -/
def panicEnv : Env :=
  { happyEnv with
    getMigrationSourceWS := fun _ _ _ _ => Except.ok
      { operation := "/op/ws"
        metaOp := Except.ok
          { resources := [], metadata := [("fs", MetaVal.other)], opErr := "" } } }


/-- A world with a single candidate address whose handshake is accepted,
whose destination-side wait fails while the source-side wait succeeds,
and whose source operation status carries a non-empty error string. -/
def destWaitFailOneEnv : Env :=
  { happyEnv with
    waitForSuccess := fun remote _ => if remote == "r2" then some "dest wait failed" else none
    getOperation := fun _ _ =>
      Except.ok { resources := [], metadata := [], opErr := "source detected failure" } }

/-- C1: in the world `destWaitFailEnv` the handshake at the first of two
candidate addresses is accepted, the destination-side wait fails with
"dest wait failed" and the source-side wait succeeds, yet
`copyContainer` reports success after exactly one handshake attempt
instead of discarding the candidate and advancing to the second address:
the drain loop of lines 237-245 reads `tmp[sourceOpId]` and stores the
zero value `nil` as `destOpErr` whenever the message came from the
destination waiter, so the `destOpErr != nil` retry branch of line 247
can never fire. -/
theorem C1_dest_wait_failure_yields_success :
    destWaitFailEnv.waitForSuccess "r2" "/op/done" = some "dest wait failed"
    ∧ destWaitFailEnv.waitForSuccess "local" "/op/ws" = none
    ∧ destWaitFailEnv.addresses "local" = Except.ok ["addr1", "addr2"]
    ∧ (copyContainer destWaitFailEnv none none "a" "r2:b" false 1 false false).2 = Outcome.ok
    ∧ ((copyContainer destWaitFailEnv none none "a" "r2:b" false 1 false false).1.filter
        isMigrateFromEv).length = 1 := by
  decide

/-- C2 counterexample: in `destWaitFailOneEnv` the only candidate
address fails at the destination-wait stage (handshake accepted,
destination wait errors, source wait succeeds) and the source operation
status reports the non-empty error string "source detected failure", so
the claim as stated requires the source-attributed error; the code
instead returns success and never reaches the exhaustion epilogue. -/
theorem C2_counterexample :
    destWaitFailOneEnv.addresses "local" = Except.ok ["addr1"]
    ∧ destWaitFailOneEnv.waitForSuccess "r2" "/op/done" = some "dest wait failed"
    ∧ destWaitFailOneEnv.waitForSuccess "local" "/op/ws" = none
    ∧ destWaitFailOneEnv.getOperation "local" "/op/ws" =
        Except.ok { resources := [], metadata := [], opErr := "source detected failure" }
    ∧ (copyContainer destWaitFailOneEnv none none "a" "r2:b" false 1 false false).2 =
        Outcome.ok := by
  decide

/-- A world where the source container lookup fails. -/
def lookupFailEnv : Env :=
  { happyEnv with containerInfo := fun _ _ => Except.error "lookup refused" }

/-- C4 counterexample: for the same-endpoint request copying "a" onto
the same name "a", the source entity lookup is a network call performed
before the same-name check, so (first conjunct) when that lookup fails
the operation reports the lookup error rather than the same-name error,
and (second conjunct) even when the lookup succeeds, the same-name error
is produced only after the `ContainerInfo` network call already appears
in the trace. -/
theorem C4_counterexample :
    copyContainer lookupFailEnv none none "a" "a" false 1 false false =
      ([Ev.containerInfo "local" "a"], Outcome.err (CopyErr.propagated "lookup refused"))
    ∧ copyContainer happyEnv none none "a" "a" false 1 false false =
        ([Ev.containerInfo "local" "a"], Outcome.err CopyErr.sameName) := by
  decide

/-- C7 counterexample: with source "foo" and no destination resource
string, the destination name does not default to the source name "foo":
it stays empty, as the `LocalCopy` request in the trace shows (the
defaulting of lines 50-52 requires a non-empty destination resource
whose parsed name part is empty). -/
theorem C7_counterexample :
    (parseRemoteAndContainer happyEnv.defaultRemote "").2 = ""
    ∧ (copyContainer happyEnv none none "foo" "" false 1 false false).1 =
        [Ev.containerInfo "local" "foo",
          Ev.localCopy "local" ⟨"foo", "", [("user.a", "v")], [], true, false⟩,
          Ev.waitForSuccess "local" "/op/done",
          Ev.print "Container name is: newc"] := by
  decide

/-- C8 counterexample: the destination resource "r2:" pins the endpoint
but carries no destination name (its parsed name part is empty, and the
name used is defaulted from the source), yet on this successful
migration the created entity's name is not reported, because the report
is keyed on the destination resource string being empty, not on the
absence of an explicit destination name. -/
theorem C8_counterexample :
    (parseRemoteAndContainer happyEnv.defaultRemote "r2:").2 = ""
    ∧ (copyContainer happyEnv none none "a" "r2:" false 1 false false).2 = Outcome.ok
    ∧ (copyContainer happyEnv none none "a" "r2:" false 1 false false).1.filter isPrintEv =
        [] := by
  decide

/-- C10: building the secrets map applies the unchecked `v.(string)`
assertion to every metadata value: the extraction succeeds whenever all
values are strings, returns the panic marker (`none`) whenever any value
is not a string, and the panic branch is reachable in a full
`copyContainer` run whose session metadata carries a non-string value. -/
theorem C10_secrets_cast_totality :
    (∀ md : List (String × MetaVal), (∀ kv ∈ md, ∃ s, kv.2 = MetaVal.str s) →
      (extractSecrets md).isSome = true)
    ∧ (∀ md : List (String × MetaVal), (∃ kv ∈ md, kv.2 = MetaVal.other) →
      extractSecrets md = none)
    ∧ (copyContainer panicEnv none none "a" "r2:b" false 1 false false).2 =
        Outcome.panicked := by
  refine ⟨?_, ?_, by decide⟩
  · intro md h
    induction md with
    | nil => rfl
    | cons hd tl ih =>
      obtain ⟨s, hs⟩ := h hd (List.mem_cons_self hd tl)
      obtain ⟨k, v⟩ := hd
      dsimp only at hs
      subst hs
      have htl := ih (fun kv hkv => h kv (List.mem_cons_of_mem _ hkv))
      rcases hrec : extractSecrets tl with _ | m
      · rw [hrec] at htl; simp at htl
      · simp [extractSecrets, hrec]
  · intro md h
    induction md with
    | nil => simp at h
    | cons hd tl ih =>
      obtain ⟨kv, hmem, hother⟩ := h
      rcases List.mem_cons.mp hmem with heq | hmem2
      · subst heq
        obtain ⟨k, v⟩ := kv
        dsimp only at hother
        subst hother
        rfl
      · have htl := ih ⟨kv, hmem2, hother⟩
        obtain ⟨k, v⟩ := hd
        rcases v with s | _
        · simp [extractSecrets, htl]
        · rfl

/-- C10 witness: the hypotheses of both universal parts instantiated at
concrete metadata maps. -/
theorem C10_witness :
    (extractSecrets [("fs", MetaVal.str "sec1")]).isSome = true
    ∧ extractSecrets [("fs", MetaVal.str "sec1"), ("control", MetaVal.other)] = none := by
  constructor
  · exact C10_secrets_cast_totality.1 [("fs", MetaVal.str "sec1")]
      (by intro kv hkv; simp at hkv; subst hkv; exact ⟨"sec1", rfl⟩)
  · exact C10_secrets_cast_totality.2.1 [("fs", MetaVal.str "sec1"), ("control", MetaVal.other)]
      ⟨("control", MetaVal.other), by simp, rfl⟩

/-- Per-event ephemeral check: every handshake request carries the given
ephemeral flag. -/
def evEphOk (b : Bool) : Ev → Bool
  | Ev.migrateFrom _ a => a.ephemeral == b
  | _ => true

/-- C9: in a cross-endpoint migration invoked with the unpinned
ephemeral value `-1`, every handshake request carries the source
container's current ephemeral setting (read back from `ContainerInfo`);
and `run` always supplies the boolean flag's value (`1` when set, `0`
otherwise) as the pinned ephemeral argument. -/
theorem C9_ephemeral_resolution_and_run_flag (env : Env) (p : Option (List String))
    (cm : Option ConfigMap) (sourceResource destResource : String)
    (kV stateful co : Bool) (sr sn dr dn : String) (sb : Status × String)
    (profs : List Profile) (ct : ContainerState)
    (hsrc : parseRemoteAndContainer env.defaultRemote sourceResource = (sr, sn))
    (hdst : parseRemoteAndContainer env.defaultRemote destResource = (dr, dn))
    (hsn : sn ≠ "") (hneq : sr ≠ dr)
    (hnc : env.newClient sr = Except.ok ())
    (hres : (resolveState env p cm sr sn kV).2 = Except.ok sb)
    (hnc2 : env.newClient dr = Except.ok ())
    (hlp : env.listProfiles dr = Except.ok profs)
    (hsub : isSubset sb.1.profiles (profs.foldl (fun acc q => acc ++ [q.name]) []) = true)
    (hct : env.containerInfo sr sn = Except.ok ct) :
    (∀ ev ∈ (copyContainer env p cm sourceResource destResource kV (-1) stateful co).1,
      evEphOk ct.ephemeral ev = true)
    ∧ (∀ (env2 : Env) (p2 : Option (List String)) (cm2 : Option ConfigMap)
        (flag co2 : Bool) (a0 : String),
        runCmd env2 p2 cm2 flag co2 [a0] =
          copyContainer env2 p2 cm2 a0 "" false (if flag then 1 else 0) false co2)
    ∧ (∀ (env2 : Env) (p2 : Option (List String)) (cm2 : Option ConfigMap)
        (flag co2 : Bool) (a0 a1 : String) (rest2 : List String),
        runCmd env2 p2 cm2 flag co2 (a0 :: a1 :: rest2) =
          copyContainer env2 p2 cm2 a0 a1 false (if flag then 1 else 0) false co2) := by
  refine ⟨?_, fun env2 p2 cm2 flag co2 a0 => rfl,
    fun env2 p2 cm2 flag co2 a0 a1 rest2 => rfl⟩
  intro ev hev
  have hre : resolveEphemeral env sr sn (-1) =
      ([Ev.containerInfo sr sn], Except.ok (if ct.ephemeral then 1 else 0)) := by
    unfold resolveEphemeral
    rw [hct]
    rfl
  rw [copyContainer_migrate_reduction env p cm sourceResource destResource kV (-1)
    stateful co sr sn dr dn sb hsrc hdst hsn hneq hnc hres] at hev
  dsimp only at hev
  rw [migratePath_reduction env sr sn dr (defaultDestName sn dn destResource) destResource
    sb.1 sb.2 (-1) stateful co profs [Ev.containerInfo sr sn]
    (if ct.ephemeral then 1 else 0) hnc2 hlp hsub hre] at hev
  rw [resolveState_fst] at hev
  simp only [List.mem_append, List.mem_cons, List.not_mem_nil, or_false] at hev
  rcases hev with hlk | ((heq | heq) | hneg)
  · rcases lookupStatus_trace_shape env sr sn with hsh | hsh <;> rw [hsh] at hlk <;>
      simp at hlk <;> subst hlk <;> rfl
  · subst heq; rfl
  · subst heq; rfl
  · have hn := migrateNegotiate_evOk env sr sn dr (defaultDestName sn dn destResource)
      destResource sb.1 sb.2 (if ct.ephemeral then 1 else 0) stateful co ev hneg
    rcases hcte : ct.ephemeral with _ | _ <;>
      cases ev <;> simp_all [negEvOk, evEphOk]

/-- C9 witness: in the all-succeeding world with the unpinned value
`-1`, the handshake request in the trace carries the source container's
ephemeral setting (`true`), and `run` instantiations reduce to
`copyContainer` with `1` and `0`. -/
theorem C9_witness :
    evEphOk srcState.ephemeral
        (Ev.migrateFrom "r2"
          (mkMigrateArgs "b" "cert" [("fs", "sec1")]
            ⟨"x86_64", [], [("user.a", "v")], []⟩ "img1" 1 false "/op/ws" "addr1")) = true
    ∧ runCmd happyEnv none none true false ["a"] =
        copyContainer happyEnv none none "a" "" false 1 false false
    ∧ runCmd happyEnv none none false false ["a", "r2:b"] =
        copyContainer happyEnv none none "a" "r2:b" false 0 false false := by
  have h := C9_ephemeral_resolution_and_run_flag happyEnv none none "a" "r2:b" false
    false false "local" "a" "r2" "b"
    (⟨"x86_64", [], [("user.a", "v")], []⟩, "img1") [] srcState
    rfl rfl (by decide) (by decide) rfl (by rfl) rfl rfl (by decide) rfl
  refine ⟨?_, ?_, ?_⟩
  · exact h.1 (Ev.migrateFrom "r2"
      (mkMigrateArgs "b" "cert" [("fs", "sec1")]
        ⟨"x86_64", [], [("user.a", "v")], []⟩ "img1" 1 false "/op/ws" "addr1")) (by decide)
  · exact h.2.1 happyEnv none none true false "a"
  · exact h.2.2 happyEnv none none false false "a" "r2:b" []

/-- C2 (amended): when every candidate address fails at the handshake
stage (the only way the attempt loop can exhaust the list, since a
destination-wait failure is not observed — see C1) and the source wait
never fails, the orchestrator queries the source operation's status: a
non-empty error string yields the source-attributed error with that
text, and otherwise the destination-attributed error wraps the last
handshake error. -/
theorem C2_exhausted_handshakes_error_choice (env : Env) (p : Option (List String))
    (cm : Option ConfigMap) (sourceResource destResource : String)
    (kV : Bool) (ephemeral : Int) (stateful co : Bool)
    (sr sn dr dn : String) (sb : Status × String) (profs : List Profile)
    (trE : Trace) (eph : Int) (ws : Response) (op : Operation) (secrets : ConfigMap)
    (pre : List String) (lastA : String) (f : String → String)
    (hsrc : parseRemoteAndContainer env.defaultRemote sourceResource = (sr, sn))
    (hdst : parseRemoteAndContainer env.defaultRemote destResource = (dr, dn))
    (hsn : sn ≠ "") (hneq : sr ≠ dr)
    (hnc : env.newClient sr = Except.ok ())
    (hres : (resolveState env p cm sr sn kV).2 = Except.ok sb)
    (hnc2 : env.newClient dr = Except.ok ())
    (hlp : env.listProfiles dr = Except.ok profs)
    (hsub : isSubset sb.1.profiles (profs.foldl (fun acc q => acc ++ [q.name]) []) = true)
    (hre : resolveEphemeral env sr sn ephemeral = (trE, Except.ok eph))
    (hws : env.getMigrationSourceWS sr sn stateful co = Except.ok ws)
    (hmo : ws.metaOp = Except.ok op)
    (hsec : extractSecrets op.metadata = some secrets)
    (haddr : env.addresses sr = Except.ok (pre ++ [lastA]))
    (hfail : ∀ a ∈ pre ++ [lastA],
      env.migrateFrom dr
        (mkMigrateArgs (defaultDestName sn dn destResource) (env.certificate sr) secrets
          sb.1 sb.2 eph co ws.operation a) = Except.error (f a)) :
    (copyContainer env p cm sourceResource destResource kV ephemeral stateful co).2 =
      match env.getOperation sr ws.operation with
      | Except.ok so =>
        if so.opErr ≠ "" then Outcome.err (CopyErr.migrationSourceHost so.opErr)
        else Outcome.err (CopyErr.migrationTargetHost (some (f lastA)))
      | Except.error _ => Outcome.err (CopyErr.migrationTargetHost (some (f lastA))) := by
  rw [copyContainer_migrate_reduction env p cm sourceResource destResource kV ephemeral
    stateful co sr sn dr dn sb hsrc hdst hsn hneq hnc hres]
  dsimp only
  rw [migratePath_reduction env sr sn dr (defaultDestName sn dn destResource) destResource
    sb.1 sb.2 ephemeral stateful co profs trE eph hnc2 hlp hsub hre]
  dsimp only
  have hloop := migrateLoop_all_fail
    { env := env, sourceRemote := sr, destRemote := dr,
      destName := defaultDestName sn dn destResource, destResource := destResource,
      status := sb.1, baseImage := sb.2, secrets := secrets,
      cert := env.certificate sr, wsOp := ws.operation, eph := eph,
      containerOnly := co } f pre lastA hfail none
  rw [migrateNegotiate_reduction_inr env sr sn dr (defaultDestName sn dn destResource)
    destResource sb.1 sb.2 eph stateful co ws op secrets (pre ++ [lastA])
    (some (f lastA)) hws hmo hsec haddr hloop]
  unfold migrateFinish
  rfl

/-- C2 witness: in the world where both handshakes are rejected, the
theorem instantiates to the destination-attributed error wrapping the
last handshake error. -/
theorem C2_witness :
    (copyContainer handshakeFailEnv none none "a" "r2:b" false 1 false false).2 =
      Outcome.err
        (CopyErr.migrationTargetHost (some "bad handshake https://addr2/op/ws")) := by
  have h := C2_exhausted_handshakes_error_choice handshakeFailEnv none none "a" "r2:b"
    false 1 false false "local" "a" "r2" "b"
    (⟨"x86_64", [], [("user.a", "v")], []⟩, "img1") [] [] 1 wsResp
    { resources := [], metadata := [("fs", MetaVal.str "sec1")], opErr := "" }
    [("fs", "sec1")] ["addr1"] "addr2"
    (fun a => "bad handshake https://" ++ a ++ "/op/ws")
    rfl rfl (by decide) (by decide) rfl (by rfl) rfl rfl (by decide) rfl rfl rfl
    (by rfl) rfl (by decide)
  exact h.trans (by decide)

/-- C3: when the first addresses fail the handshake and the last
address is accepted with both side waits succeeding, `copyContainer`
returns success and the trace contains exactly one handshake attempt
per address, in the order discovery returned them. -/
theorem C3_ordered_single_attempt_per_address (env : Env) (p : Option (List String))
    (cm : Option ConfigMap) (sourceResource destResource : String)
    (kV : Bool) (ephemeral : Int) (stateful co : Bool)
    (sr sn dr dn : String) (sb : Status × String) (profs : List Profile)
    (trE : Trace) (eph : Int) (ws : Response) (op : Operation) (secrets : ConfigMap)
    (pre : List String) (aN : String) (f : String → String) (resp : Response)
    (hsrc : parseRemoteAndContainer env.defaultRemote sourceResource = (sr, sn))
    (hdst : parseRemoteAndContainer env.defaultRemote destResource = (dr, dn))
    (hsn : sn ≠ "") (hneq : sr ≠ dr)
    (hnc : env.newClient sr = Except.ok ())
    (hres : (resolveState env p cm sr sn kV).2 = Except.ok sb)
    (hnc2 : env.newClient dr = Except.ok ())
    (hlp : env.listProfiles dr = Except.ok profs)
    (hsub : isSubset sb.1.profiles (profs.foldl (fun acc q => acc ++ [q.name]) []) = true)
    (hre : resolveEphemeral env sr sn ephemeral = (trE, Except.ok eph))
    (hws : env.getMigrationSourceWS sr sn stateful co = Except.ok ws)
    (hmo : ws.metaOp = Except.ok op)
    (hsec : extractSecrets op.metadata = some secrets)
    (haddr : env.addresses sr = Except.ok (pre ++ [aN]))
    (hpre : ∀ a ∈ pre,
      env.migrateFrom dr
        (mkMigrateArgs (defaultDestName sn dn destResource) (env.certificate sr) secrets
          sb.1 sb.2 eph co ws.operation a) = Except.error (f a))
    (hN : env.migrateFrom dr
        (mkMigrateArgs (defaultDestName sn dn destResource) (env.certificate sr) secrets
          sb.1 sb.2 eph co ws.operation aN) = Except.ok resp)
    (hdw : env.waitForSuccess dr resp.operation = none)
    (hsw : env.waitForSuccess sr ws.operation = none)
    (hdr : destResource ≠ "") :
    (copyContainer env p cm sourceResource destResource kV ephemeral stateful co).2 =
      Outcome.ok
    ∧ (copyContainer env p cm sourceResource destResource kV ephemeral
        stateful co).1.filter isMigrateFromEv =
      (pre ++ [aN]).map (fun a => Ev.migrateFrom dr
        (mkMigrateArgs (defaultDestName sn dn destResource) (env.certificate sr) secrets
          sb.1 sb.2 eph co ws.operation a)) := by
  have hloop := migrateLoop_pre_fail_succeed
    { env := env, sourceRemote := sr, destRemote := dr,
      destName := defaultDestName sn dn destResource, destResource := destResource,
      status := sb.1, baseImage := sb.2, secrets := secrets,
      cert := env.certificate sr, wsOp := ws.operation, eph := eph,
      containerOnly := co } f pre aN resp hpre hN hdw hsw hdr none
  rw [copyContainer_migrate_reduction env p cm sourceResource destResource kV ephemeral
    stateful co sr sn dr dn sb hsrc hdst hsn hneq hnc hres]
  rw [migratePath_reduction env sr sn dr (defaultDestName sn dn destResource) destResource
    sb.1 sb.2 ephemeral stateful co profs trE eph hnc2 hlp hsub hre]
  rw [migrateNegotiate_reduction_inl env sr sn dr (defaultDestName sn dn destResource)
    destResource sb.1 sb.2 eph stateful co ws op secrets (pre ++ [aN]) Outcome.ok
    hws hmo hsec haddr hloop.1]
  dsimp only
  refine ⟨rfl, ?_⟩
  rw [resolveState_fst]
  rw [List.filter_append, List.filter_append, List.filter_append, List.filter_append]
  rw [hloop.2]
  rw [lookupStatus_filter_empty env sr sn isMigrateFromEv (fun r n => rfl) (fun r n => rfl)]
  have htrE : trE.filter isMigrateFromEv = [] := by
    have hsh := resolveEphemeral_trace_shape env sr sn ephemeral
    rw [hre] at hsh
    rcases hsh with hsh | hsh <;> dsimp only at hsh <;> rw [hsh] <;> rfl
  rw [htrE]
  rfl

/-- A world where the handshake at the first address is rejected and
the one at the second address is accepted. -/
def firstFailEnv : Env :=
  { happyEnv with
    addresses := fun _ => Except.ok ["addr1", "addr2"]
    migrateFrom := fun _ args =>
      if args.sourceWSUrl == "https://addr1/op/ws" then Except.error "bad handshake"
      else Except.ok doneResp }

/-- C3 witness: the theorem instantiated in `firstFailEnv`: success with
exactly the two handshake attempts, in discovery order. -/
theorem C3_witness :
    (copyContainer firstFailEnv none none "a" "r2:b" false 1 false false).2 = Outcome.ok
    ∧ (copyContainer firstFailEnv none none "a" "r2:b" false 1
        false false).1.filter isMigrateFromEv =
      ["addr1", "addr2"].map (fun a => Ev.migrateFrom "r2"
        (mkMigrateArgs "b" "cert" [("fs", "sec1")]
          ⟨"x86_64", [], [("user.a", "v")], []⟩ "img1" 1 false "/op/ws" a)) := by
  exact C3_ordered_single_attempt_per_address firstFailEnv none none "a" "r2:b"
    false 1 false false "local" "a" "r2" "b"
    (⟨"x86_64", [], [("user.a", "v")], []⟩, "img1") [] [] 1 wsResp
    { resources := [], metadata := [("fs", MetaVal.str "sec1")], opErr := "" }
    [("fs", "sec1")] ["addr1"] "addr2" (fun _ => "bad handshake") doneResp
    rfl rfl (by decide) (by decide) rfl (by rfl) rfl rfl (by decide) rfl rfl rfl
    (by rfl) rfl (by decide) (by decide) (by decide) (by decide) (by decide)

/-- C4 (amended): for a same-endpoint request whose source and (post
defaulting) destination names are both the same non-empty name, the
operation fails with the same-name error, but only after the source
state lookup: the whole trace is exactly that one lookup network call,
and in particular no copy request, handshake, or session negotiation is
ever issued. -/
theorem C4_same_name_after_lookup (env : Env) (p : Option (List String))
    (cm : Option ConfigMap) (sourceResource destResource : String)
    (kV : Bool) (eph : Int) (stateful co : Bool) (sr n dn : String) (sb : Status × String)
    (hsrc : parseRemoteAndContainer env.defaultRemote sourceResource = (sr, n))
    (hdst : parseRemoteAndContainer env.defaultRemote destResource = (sr, dn))
    (hn : n ≠ "") (hdn : dn = n)
    (hnc : env.newClient sr = Except.ok ())
    (hres : (resolveState env p cm sr n kV).2 = Except.ok sb) :
    copyContainer env p cm sourceResource destResource kV eph stateful co =
      ((lookupStatus env sr n).1, Outcome.err CopyErr.sameName)
    ∧ (lookupStatus env sr n).1.filter
        (fun ev => isLocalCopyEv ev || isMigrateFromEv ev || isSessionEv ev) = [] := by
  rw [hdn] at hdst
  have hdd : defaultDestName n n destResource = n := by
    unfold defaultDestName
    rw [if_neg (fun hcontr => hn hcontr.1)]
  constructor
  · rw [copyContainer_local_reduction env p cm sourceResource destResource kV eph
      stateful co sr n n sb hsrc hdst hn hnc hres, hdd]
    unfold localPath
    rw [if_pos rfl]
    rw [resolveState_fst]
    simp
  · exact lookupStatus_filter_empty env sr n
      (fun ev => isLocalCopyEv ev || isMigrateFromEv ev || isSessionEv ev)
      (fun r m => rfl) (fun r m => rfl)

/-- C4 witness: the amended theorem instantiated in the all-succeeding
world at the same-endpoint request copying "a" onto "a". -/
theorem C4_witness :
    copyContainer happyEnv none none "a" "a" false 1 false false =
      ((lookupStatus happyEnv "local" "a").1, Outcome.err CopyErr.sameName)
    ∧ (lookupStatus happyEnv "local" "a").1.filter
        (fun ev => isLocalCopyEv ev || isMigrateFromEv ev || isSessionEv ev) = [] :=
  C4_same_name_after_lookup happyEnv none none "a" "a" false 1 false false
    "local" "a" "a" (⟨"x86_64", [], [("user.a", "v")], []⟩, "img1")
    rfl rfl (by decide) rfl rfl (by rfl)

/-- C7 (amended): the source entity name must be non-empty (otherwise
the argument error is returned before anything else happens); the
destination name defaults to the source name only when a destination
resource string was given whose parsed name part is empty; when no
destination resource string is given at all, the destination name used
stays empty. -/
theorem C7_source_name_and_dest_default (env : Env) (p : Option (List String))
    (cm : Option ConfigMap) (kV : Bool) (eph : Int) (stateful co : Bool) :
    (∀ sourceResource destResource : String,
      (parseRemoteAndContainer env.defaultRemote sourceResource).2 = "" →
      copyContainer env p cm sourceResource destResource kV eph stateful co =
        ([], Outcome.err CopyErr.mustSpecifySource))
    ∧ (∀ (sourceResource destResource sr sn : String) (sb : Status × String),
        parseRemoteAndContainer env.defaultRemote sourceResource = (sr, sn) →
        parseRemoteAndContainer env.defaultRemote destResource = (sr, "") →
        sn ≠ "" → destResource ≠ "" →
        env.newClient sr = Except.ok () →
        (resolveState env p cm sr sn kV).2 = Except.ok sb →
        copyContainer env p cm sourceResource destResource kV eph stateful co =
          ((lookupStatus env sr sn).1 ++
              (localPath env sr sn sn destResource sb.1 eph co).1,
            (localPath env sr sn sn destResource sb.1 eph co).2))
    ∧ (∀ (sourceResource sr sn : String) (sb : Status × String),
        parseRemoteAndContainer env.defaultRemote sourceResource = (sr, sn) →
        sr = env.defaultRemote → sn ≠ "" →
        env.newClient sr = Except.ok () →
        (resolveState env p cm sr sn kV).2 = Except.ok sb →
        copyContainer env p cm sourceResource "" kV eph stateful co =
          ((lookupStatus env sr sn).1 ++ (localPath env sr sn "" "" sb.1 eph co).1,
            (localPath env sr sn "" "" sb.1 eph co).2)) := by
  refine ⟨?_, ?_, ?_⟩
  · intro sourceResource destResource h
    unfold copyContainer
    rcases hp : parseRemoteAndContainer env.defaultRemote sourceResource with ⟨a, b⟩
    rw [hp] at h
    dsimp only at h
    dsimp only
    rw [if_pos h]
  · intro sourceResource destResource sr sn sb hsrc hdst hsn hdres hnc hres
    have hdd : defaultDestName sn "" destResource = sn := by
      unfold defaultDestName
      rw [if_pos ⟨rfl, hdres⟩]
    rw [copyContainer_local_reduction env p cm sourceResource destResource kV eph
      stateful co sr sn "" sb hsrc hdst hsn hnc hres, hdd, resolveState_fst]
  · intro sourceResource sr sn sb hsrc hsr hsn hnc hres
    have hdst : parseRemoteAndContainer env.defaultRemote "" = (sr, "") := by
      rw [hsr]
      rfl
    have hdd : defaultDestName sn "" "" = "" := by
      unfold defaultDestName
      rw [if_neg (fun hcontr => hcontr.2 rfl)]
    rw [copyContainer_local_reduction env p cm sourceResource "" kV eph
      stateful co sr sn "" sb hsrc hdst hsn hnc hres, hdd, resolveState_fst]

/-- C7 witness: the three parts instantiated concretely: an empty source
name errors out; `lxc copy foo local:` uses destination name "foo"; and
`lxc copy foo` (no destination resource) uses the empty destination
name. -/
theorem C7_witness :
    copyContainer happyEnv none none "" "b" false 1 false false =
      ([], Outcome.err CopyErr.mustSpecifySource)
    ∧ copyContainer happyEnv none none "foo" "local:" false 1 false false =
        ((lookupStatus happyEnv "local" "foo").1 ++
            (localPath happyEnv "local" "foo" "foo" "local:"
              ⟨"x86_64", [], [("user.a", "v")], []⟩ 1 false).1,
          (localPath happyEnv "local" "foo" "foo" "local:"
            ⟨"x86_64", [], [("user.a", "v")], []⟩ 1 false).2)
    ∧ copyContainer happyEnv none none "foo" "" false 1 false false =
        ((lookupStatus happyEnv "local" "foo").1 ++
            (localPath happyEnv "local" "foo" "" ""
              ⟨"x86_64", [], [("user.a", "v")], []⟩ 1 false).1,
          (localPath happyEnv "local" "foo" "" ""
            ⟨"x86_64", [], [("user.a", "v")], []⟩ 1 false).2) := by
  have h := C7_source_name_and_dest_default happyEnv none none false 1 false false
  refine ⟨h.1 "" "b" rfl, ?_, ?_⟩
  · exact h.2.1 "foo" "local:" "local" "foo"
      (⟨"x86_64", [], [("user.a", "v")], []⟩, "img1") rfl rfl (by decide) (by decide)
      rfl (by rfl)
  · exact h.2.2 "foo" "local" "foo"
      (⟨"x86_64", [], [("user.a", "v")], []⟩, "img1") rfl rfl (by decide) rfl (by rfl)

/-- The local-copy path never fetches a profile catalog. -/
theorem localPath_no_listProfiles (env : Env)
    (sourceRemote sourceName destName destResource : String)
    (status : Status) (eph : Int) (co : Bool) :
    (localPath env sourceRemote sourceName destName destResource
      status eph co).1.filter isListProfilesEv = [] := by
  rw [List.filter_eq_nil_iff]
  intro ev hev
  have h := localPath_evOk env sourceRemote sourceName destName destResource status
    eph co ev hev
  cases ev <;> simp_all [localEvOk, isListProfilesEv]

/-- The negotiate-and-attempt stage never fetches a profile catalog. -/
theorem migrateNegotiate_no_listProfiles (env : Env)
    (sourceRemote sourceName destRemote destName destResource : String)
    (status : Status) (baseImage : String) (eph : Int) (stateful co : Bool) :
    (migrateNegotiate env sourceRemote sourceName destRemote destName destResource
      status baseImage eph stateful co).1.filter isListProfilesEv = [] := by
  rw [List.filter_eq_nil_iff]
  intro ev hev
  have h := migrateNegotiate_evOk env sourceRemote sourceName destRemote destName
    destResource status baseImage eph stateful co ev hev
  cases ev <;> simp_all [negEvOk, isListProfilesEv]

/-- The migration path fetches the destination profile catalog at most
once. -/
theorem migratePath_listProfiles_le_one (env : Env)
    (sourceRemote sourceName destRemote destName destResource : String)
    (status : Status) (baseImage : String) (ephemeral : Int) (stateful co : Bool) :
    ((migratePath env sourceRemote sourceName destRemote destName destResource status
      baseImage ephemeral stateful co).1.filter isListProfilesEv).length ≤ 1 := by
  unfold migratePath
  rcases hnc : env.newClient destRemote with e | u
  · simp
  · dsimp only
    rcases hlp : env.listProfiles destRemote with e | profiles
    · simp [isListProfilesEv]
    · dsimp only
      rcases hsub : isSubset status.profiles
          (profiles.foldl (fun acc q => acc ++ [q.name]) []) with _ | _
      · rw [hsub]
        simp [isListProfilesEv]
      · rw [hsub]
        simp only [Bool.not_true, Bool.false_eq_true, if_false]
        rcases hre : resolveEphemeral env sourceRemote sourceName ephemeral with ⟨trE, re⟩
        have htrE : trE.filter isListProfilesEv = [] := by
          have hsh := resolveEphemeral_trace_shape env sourceRemote sourceName ephemeral
          rw [hre] at hsh
          rcases hsh with hsh | hsh <;> dsimp only at hsh <;> rw [hsh] <;> rfl
        rcases re with e | eph
        · rw [List.filter_append, htrE]
          simp [isListProfilesEv]
        · dsimp only
          rw [List.filter_append, List.filter_append, htrE,
            migrateNegotiate_no_listProfiles]
          simp [isListProfilesEv]

/-- C6: a cross-endpoint request whose merged profile list is not
contained in the destination catalog fails with the profile-mismatch
error after exactly one catalog fetch and before any migration session
is negotiated with the source; moreover, in every run whatsoever the
catalog is fetched at most once, and never on a same-endpoint
transfer. -/
theorem C6_profile_mismatch_no_session (env : Env) (p : Option (List String))
    (cm : Option ConfigMap) (sourceResource destResource : String)
    (kV : Bool) (eph : Int) (stateful co : Bool) (sr sn dr dn : String)
    (hsrc : parseRemoteAndContainer env.defaultRemote sourceResource = (sr, sn))
    (hdst : parseRemoteAndContainer env.defaultRemote destResource = (dr, dn)) :
    (sn ≠ "" → sr ≠ dr → env.newClient sr = Except.ok () →
      env.newClient dr = Except.ok () →
      ∀ sb : Status × String, (resolveState env p cm sr sn kV).2 = Except.ok sb →
      ∀ profs : List Profile, env.listProfiles dr = Except.ok profs →
      isSubset sb.1.profiles (profs.foldl (fun acc q => acc ++ [q.name]) []) = false →
      copyContainer env p cm sourceResource destResource kV eph stateful co =
        ((lookupStatus env sr sn).1 ++ [Ev.listProfiles dr],
          Outcome.err CopyErr.profileMismatch)
      ∧ (copyContainer env p cm sourceResource destResource kV eph
          stateful co).1.filter isSessionEv = [])
    ∧ ((copyContainer env p cm sourceResource destResource kV eph
        stateful co).1.filter isListProfilesEv).length ≤ 1
    ∧ (sr = dr → (copyContainer env p cm sourceResource destResource kV eph
        stateful co).1.filter isListProfilesEv = []) := by
  refine ⟨?_, ?_, ?_⟩
  · intro hsn hneq hnc hnc2 sb hres profs hlp hsub
    have hc : copyContainer env p cm sourceResource destResource kV eph stateful co =
        ((lookupStatus env sr sn).1 ++ [Ev.listProfiles dr],
          Outcome.err CopyErr.profileMismatch) := by
      rw [copyContainer_migrate_reduction env p cm sourceResource destResource kV eph
        stateful co sr sn dr dn sb hsrc hdst hsn hneq hnc hres]
      rw [migratePath_mismatch env sr sn dr (defaultDestName sn dn destResource)
        destResource sb.1 sb.2 eph stateful co profs hnc2 hlp hsub]
      rw [resolveState_fst]
    refine ⟨hc, ?_⟩
    rw [hc]
    dsimp only
    rw [List.filter_append,
      lookupStatus_filter_empty env sr sn isSessionEv (fun r m => rfl) (fun r m => rfl)]
    rfl
  · rcases copyContainer_trace_cases env p cm sourceResource destResource kV eph
      stateful co with
      hc | ⟨sr1, sn1, hp1, hc⟩ | ⟨sr1, sn1, dn1, sb, hp1, hp2, hsb, hc⟩ |
      ⟨sr1, sn1, dr1, dn1, sb, hp1, hp2, hne, hsb, hc⟩
    · rw [hc]; simp
    · rw [hc, lookupStatus_filter_empty env sr1 sn1 isListProfilesEv
        (fun r m => rfl) (fun r m => rfl)]
      simp
    · rw [hc, List.filter_append,
        lookupStatus_filter_empty env sr1 sn1 isListProfilesEv
          (fun r m => rfl) (fun r m => rfl),
        localPath_no_listProfiles]
      simp
    · rw [hc, List.filter_append,
        lookupStatus_filter_empty env sr1 sn1 isListProfilesEv
          (fun r m => rfl) (fun r m => rfl)]
      simpa using migratePath_listProfiles_le_one env sr1 sn1 dr1
        (defaultDestName sn1 dn1 destResource) destResource sb.1 sb.2 eph stateful co
  · intro hs
    rcases copyContainer_trace_cases env p cm sourceResource destResource kV eph
      stateful co with
      hc | ⟨sr1, sn1, hp1, hc⟩ | ⟨sr1, sn1, dn1, sb, hp1, hp2, hsb, hc⟩ |
      ⟨sr1, sn1, dr1, dn1, sb, hp1, hp2, hne, hsb, hc⟩
    · rw [hc]; rfl
    · rw [hc]
      exact lookupStatus_filter_empty env sr1 sn1 isListProfilesEv
        (fun r m => rfl) (fun r m => rfl)
    · rw [hc, List.filter_append,
        lookupStatus_filter_empty env sr1 sn1 isListProfilesEv
          (fun r m => rfl) (fun r m => rfl),
        localPath_no_listProfiles]
      rfl
    · exfalso
      rw [hsrc] at hp1
      rw [hdst] at hp2
      have h1 : sr = sr1 := congrArg Prod.fst hp1
      have h2 : dr = dr1 := congrArg Prod.fst hp2
      exact hne (h1 ▸ h2 ▸ hs)

/-- A world whose destination lacks the source's profile. -/
def profileGapEnv : Env :=
  { happyEnv with
    containerInfo := fun _ _ => Except.ok { srcState with profiles := ["default"] }
    listProfiles := fun _ => Except.ok [] }

/-- C6 witness: the theorem instantiated in a world whose destination
catalog is empty while the source uses the "default" profile. -/
theorem C6_witness :
    copyContainer profileGapEnv none none "a" "r2:b" false 1 false false =
      ((lookupStatus profileGapEnv "local" "a").1 ++ [Ev.listProfiles "r2"],
        Outcome.err CopyErr.profileMismatch)
    ∧ (copyContainer profileGapEnv none none "a" "r2:b" false 1
        false false).1.filter isSessionEv = []
    ∧ ((copyContainer profileGapEnv none none "a" "r2:b" false 1
        false false).1.filter isListProfilesEv).length ≤ 1
    ∧ (copyContainer profileGapEnv none none "a" "a2" false 1
        false false).1.filter isListProfilesEv = [] := by
  have h := C6_profile_mismatch_no_session profileGapEnv none none "a" "r2:b"
    false 1 false false "local" "a" "r2" "b" rfl rfl
  have h2 := C6_profile_mismatch_no_session profileGapEnv none none "a" "a2"
    false 1 false false "local" "a" "local" "a2" rfl rfl
  have ha := h.1 (by decide) (by decide) rfl rfl
    (⟨"x86_64", [], [("user.a", "v")], ["default"]⟩, "img1") (by rfl) [] rfl (by decide)
  exact ⟨ha.1, ha.2, h.2.1, h2.2.2 rfl⟩

/-- With a non-empty destination resource the local-copy path prints
nothing. -/
theorem localPath_no_print (env : Env)
    (sourceRemote sourceName destName destResource : String)
    (status : Status) (eph : Int) (co : Bool) (hdr : destResource ≠ "") :
    (localPath env sourceRemote sourceName destName destResource
      status eph co).1.filter isPrintEv = [] := by
  rw [List.filter_eq_nil_iff]
  intro ev hev
  have h := localPath_evOk env sourceRemote sourceName destName destResource status
    eph co ev hev
  cases ev <;> simp_all [localEvOk, isPrintEv]

/-- With a non-empty destination resource the migration path prints
nothing. -/
theorem migratePath_no_print (env : Env)
    (sourceRemote sourceName destRemote destName destResource : String)
    (status : Status) (baseImage : String) (ephemeral : Int) (stateful co : Bool)
    (hdr : destResource ≠ "") :
    (migratePath env sourceRemote sourceName destRemote destName destResource status
      baseImage ephemeral stateful co).1.filter isPrintEv = [] := by
  rw [List.filter_eq_nil_iff]
  intro ev hev
  have h := migratePath_evOk env sourceRemote sourceName destRemote destName
    destResource status baseImage ephemeral stateful co ev hev
  cases ev <;> simp_all [pathEvOk, isPrintEv]

/-- C8 (amended): the created entity's name is reported if and only if
the caller supplied no destination resource string at all (a destination
resource with an empty name part still suppresses the report); the name
printed is the last path segment of the first entry of the operation's
"containers" resource collection, and the missing-resource error is
returned when the metadata, the collection, or its first entry is
absent. -/
theorem C8_report_iff_no_dest_resource (env : Env) (p : Option (List String))
    (cm : Option ConfigMap) :
    (∀ (sourceResource destResource : String) (kV : Bool) (eph : Int) (stateful co : Bool),
      destResource ≠ "" →
      (copyContainer env p cm sourceResource destResource kV eph
        stateful co).1.filter isPrintEv = [])
    ∧ (∀ (resp : Response) (e : String), resp.metaOp = Except.error e →
        reportCreatedName resp = ([], Except.error CopyErr.missingResource))
    ∧ (∀ (resp : Response) (op : Operation), resp.metaOp = Except.ok op →
        op.resources.find? (fun q => q.1 == "containers") = none →
        reportCreatedName resp = ([], Except.error CopyErr.missingResource))
    ∧ (∀ (resp : Response) (op : Operation) (entry : String × List String),
        resp.metaOp = Except.ok op →
        op.resources.find? (fun q => q.1 == "containers") = some entry →
        entry.2 = [] →
        reportCreatedName resp = ([], Except.error CopyErr.missingResource))
    ∧ (∀ (resp : Response) (op : Operation) (entry : String × List String)
        (c0 : String) (cs : List String),
        resp.metaOp = Except.ok op →
        op.resources.find? (fun q => q.1 == "containers") = some entry →
        entry.2 = c0 :: cs →
        reportCreatedName resp =
          ([Ev.print ("Container name is: " ++ (splitOnChar '/' c0).getLastD "")],
            Except.ok ()))
    ∧ (∀ (sourceResource sr sn : String) (sb : Status × String) (cp : Response)
        (kV : Bool) (eph : Int) (stateful co : Bool),
        parseRemoteAndContainer env.defaultRemote sourceResource = (sr, sn) →
        sr = env.defaultRemote → sn ≠ "" →
        env.newClient sr = Except.ok () →
        (resolveState env p cm sr sn kV).2 = Except.ok sb →
        env.localCopy sr ⟨sn, "", sb.1.config, sb.1.profiles, eph == 1, co⟩ =
          Except.ok cp →
        env.waitForSuccess sr cp.operation = none →
        copyContainer env p cm sourceResource "" kV eph stateful co =
          ((lookupStatus env sr sn).1 ++
              ([Ev.localCopy sr ⟨sn, "", sb.1.config, sb.1.profiles, eph == 1, co⟩,
                Ev.waitForSuccess sr cp.operation] ++ (reportCreatedName cp).1),
            match (reportCreatedName cp).2 with
            | Except.error ce => Outcome.err ce
            | Except.ok _ => Outcome.ok)) := by
  refine ⟨?_, ?_, ?_, ?_, ?_, ?_⟩
  · intro sourceResource destResource kV eph stateful co hdr
    rcases copyContainer_trace_cases env p cm sourceResource destResource kV eph
      stateful co with
      hc | ⟨sr1, sn1, hp1, hc⟩ | ⟨sr1, sn1, dn1, sb, hp1, hp2, hsb, hc⟩ |
      ⟨sr1, sn1, dr1, dn1, sb, hp1, hp2, hne, hsb, hc⟩
    · rw [hc]; rfl
    · rw [hc]
      exact lookupStatus_filter_empty env sr1 sn1 isPrintEv
        (fun r m => rfl) (fun r m => rfl)
    · rw [hc, List.filter_append,
        lookupStatus_filter_empty env sr1 sn1 isPrintEv (fun r m => rfl) (fun r m => rfl),
        localPath_no_print env sr1 sn1 (defaultDestName sn1 dn1 destResource)
          destResource sb.1 eph co hdr]
      rfl
    · rw [hc, List.filter_append,
        lookupStatus_filter_empty env sr1 sn1 isPrintEv (fun r m => rfl) (fun r m => rfl),
        migratePath_no_print env sr1 sn1 dr1 (defaultDestName sn1 dn1 destResource)
          destResource sb.1 sb.2 eph stateful co hdr]
      rfl
  · intro resp e hmo
    unfold reportCreatedName
    rw [hmo]
  · intro resp op hmo hfind
    unfold reportCreatedName
    rw [hmo]
    dsimp only
    rw [hfind]
  · intro resp op entry hmo hfind hent
    unfold reportCreatedName
    rw [hmo]
    dsimp only
    rw [hfind]
    dsimp only
    rw [hent]
  · intro resp op entry c0 cs hmo hfind hent
    unfold reportCreatedName
    rw [hmo]
    dsimp only
    rw [hfind]
    dsimp only
    rw [hent]
  · intro sourceResource sr sn sb cp kV eph stateful co hsrc hsr hsn hnc hres hlc hw
    have hdst : parseRemoteAndContainer env.defaultRemote "" = (sr, "") := by
      rw [hsr]
      rfl
    have hdd : defaultDestName sn "" "" = "" := by
      unfold defaultDestName
      rw [if_neg (fun hcontr => hcontr.2 rfl)]
    rw [copyContainer_local_reduction env p cm sourceResource "" kV eph
      stateful co sr sn "" sb hsrc hdst hsn hnc hres, hdd, resolveState_fst]
    unfold localPath
    rw [if_neg hsn]
    dsimp only
    rw [hlc]
    dsimp only
    rw [hw]
    dsimp only
    rw [if_pos rfl]

/-- C8 witness: the amended theorem's parts instantiated concretely: no
report on "a" to "r2:b"; the extraction contract on the concrete
completed operation; and the local copy of "foo" with no destination
resource reporting "newc". -/
theorem C8_witness :
    (copyContainer happyEnv none none "a" "r2:b" false 1
      false false).1.filter isPrintEv = []
    ∧ reportCreatedName doneResp =
        ([Ev.print "Container name is: newc"], Except.ok ())
    ∧ reportCreatedName { operation := "/op/done", metaOp := Except.error "bad" } =
        ([], Except.error CopyErr.missingResource)
    ∧ copyContainer happyEnv none none "foo" "" false 1 false false =
        ((lookupStatus happyEnv "local" "foo").1 ++
            ([Ev.localCopy "local"
                ⟨"foo", "", [("user.a", "v")], [], true, false⟩,
              Ev.waitForSuccess "local" "/op/done"] ++ (reportCreatedName doneResp).1),
          match (reportCreatedName doneResp).2 with
          | Except.error ce => Outcome.err ce
          | Except.ok _ => Outcome.ok) := by
  have h := C8_report_iff_no_dest_resource happyEnv none none
  refine ⟨h.1 "a" "r2:b" false 1 false false (by decide), ?_, ?_, ?_⟩
  · have hd := h.2.2.2.2.1 doneResp
      { resources := [("containers", ["/1.0/containers/newc"])], metadata := [], opErr := "" }
      ("containers", ["/1.0/containers/newc"]) "/1.0/containers/newc" []
      rfl rfl rfl
    exact hd.trans (by decide)
  · exact h.2.1 { operation := "/op/done", metaOp := Except.error "bad" } "bad" rfl
  · exact h.2.2.2.2.2 "foo" "local" "foo"
      (⟨"x86_64", [], [("user.a", "v")], []⟩, "img1") doneResp false 1 false false
      rfl rfl (by decide) rfl (by rfl) rfl rfl

/-- Per-event state check for C5: every state sent onward (local copy or
handshake) carries no volatile-prefixed config key unless preservation
was requested, and every handshake forwards the base image read from the
merged (pre-strip) config under the reserved volatile key. -/
def sendEvOk (kV : Bool) (mergedCfg : ConfigMap) : Ev → Bool
  | Ev.localCopy _ a => kV || a.config.all (fun kvp => !strHasPrefix kvp.1 "volatile")
  | Ev.migrateFrom _ a =>
    (kV || a.config.all (fun kvp => !strHasPrefix kvp.1 "volatile")) &&
      a.baseImage == mapGet mergedCfg "volatile.base_image"
  | _ => true

/-- The config constraint of `localEvOk`, extracted. -/
theorem localEvOk_config (sourceRemote sourceName destName destResource : String)
    (status : Status) (eph : Int) (co : Bool) (r : String) (a : LocalCopyArgs)
    (h : localEvOk sourceRemote sourceName destName destResource status eph co
      (Ev.localCopy r a) = true) :
    a.config = status.config := by
  simp only [localEvOk, Bool.and_eq_true, beq_iff_eq] at h
  tauto

/-- The config and base-image constraints of `pathEvOk`, extracted. -/
theorem pathEvOk_migrate_config (sourceRemote destRemote destResource : String)
    (status : Status) (baseImage : String) (co : Bool) (r : String) (a : MigrateArgs)
    (h : pathEvOk sourceRemote destRemote destResource status baseImage co
      (Ev.migrateFrom r a) = true) :
    a.config = status.config ∧ a.baseImage = baseImage := by
  simp only [pathEvOk, Bool.and_eq_true, beq_iff_eq] at h
  tauto

/-- `sendEvOk` holds of a local copy whose config is the resolved one. -/
theorem sendEvOk_localCopy (kV : Bool) (merged : Status) (r : String) (a : LocalCopyArgs)
    (hcfg : a.config = (if kV then merged else stripVolatile merged).config) :
    sendEvOk kV merged.config (Ev.localCopy r a) = true := by
  rcases kV with _ | _
  · rw [if_neg (by simp)] at hcfg
    simp only [sendEvOk, Bool.false_or, hcfg]
    exact stripVolatile_config_all merged
  · rfl

/-- `sendEvOk` holds of a handshake whose config is the resolved one and
whose base image is the merged-config value. -/
theorem sendEvOk_migrateFrom (kV : Bool) (merged : Status) (r : String) (a : MigrateArgs)
    (hcfg : a.config = (if kV then merged else stripVolatile merged).config)
    (hbi : a.baseImage = mapGet merged.config "volatile.base_image") :
    sendEvOk kV merged.config (Ev.migrateFrom r a) = true := by
  rcases kV with _ | _
  · rw [if_neg (by simp)] at hcfg
    simp only [sendEvOk, Bool.false_or, hcfg, hbi, Bool.and_eq_true, beq_self_eq_true,
      and_true]
    exact stripVolatile_config_all merged
  · simp [sendEvOk, hbi]

/-- C5: in every run whose source lookup succeeds, each state sent
onward (local copy request or migration handshake) contains no
volatile-prefixed config key unless preservation was requested, while
each handshake forwards the base image read from the reserved volatile
key of the merged (pre-strip) config, whatever the preservation flag. -/
theorem C5_volatile_stripped_base_image_forwarded (env : Env) (p : Option (List String))
    (cm : Option ConfigMap) (sourceResource destResource : String)
    (kV : Bool) (eph : Int) (stateful co : Bool) (st0 : Status)
    (hlook : (lookupStatus env (parseRemoteAndContainer env.defaultRemote sourceResource).1
        (parseRemoteAndContainer env.defaultRemote sourceResource).2).2 =
      Except.ok st0) :
    ∀ ev ∈ (copyContainer env p cm sourceResource destResource kV eph stateful co).1,
      sendEvOk kV (applyConfigMap cm (applyProfArgs p st0)).config ev = true := by
  intro ev hev
  rcases copyContainer_trace_cases env p cm sourceResource destResource kV eph
    stateful co with
    hc | ⟨sr1, sn1, hp1, hc⟩ | ⟨sr1, sn1, dn1, sb, hp1, hp2, hsb, hc⟩ |
    ⟨sr1, sn1, dr1, dn1, sb, hp1, hp2, hne, hsb, hc⟩
  · rw [hc] at hev
    simp at hev
  · rw [hc] at hev
    rcases lookupStatus_trace_shape env sr1 sn1 with hsh | hsh <;> rw [hsh] at hev <;>
      simp at hev <;> subst hev <;> rfl
  · rw [hp1] at hlook
    dsimp only at hlook
    have hX := resolveState_eq_of_lookup env p cm sr1 sn1 kV st0 hlook
    rw [hX] at hsb
    dsimp only at hsb
    have hsb2 := Except.ok.inj hsb
    subst hsb2
    rw [hc] at hev
    rw [List.mem_append] at hev
    rcases hev with hlk | hlp2
    · rcases lookupStatus_trace_shape env sr1 sn1 with hsh | hsh <;> rw [hsh] at hlk <;>
        simp at hlk <;> subst hlk <;> rfl
    · have h := localPath_evOk env sr1 sn1 (defaultDestName sn1 dn1 destResource)
        destResource _ eph co ev hlp2
      cases ev with
      | localCopy r a =>
        exact sendEvOk_localCopy kV (applyConfigMap cm (applyProfArgs p st0)) r a
          (localEvOk_config _ _ _ _ _ _ _ r a h)
      | migrateFrom r a => simp [localEvOk] at h
      | _ => rfl
  · rw [hp1] at hlook
    dsimp only at hlook
    have hX := resolveState_eq_of_lookup env p cm sr1 sn1 kV st0 hlook
    rw [hX] at hsb
    dsimp only at hsb
    have hsb2 := Except.ok.inj hsb
    subst hsb2
    rw [hc] at hev
    rw [List.mem_append] at hev
    rcases hev with hlk | hmp
    · rcases lookupStatus_trace_shape env sr1 sn1 with hsh | hsh <;> rw [hsh] at hlk <;>
        simp at hlk <;> subst hlk <;> rfl
    · have h := migratePath_evOk env sr1 sn1 dr1 (defaultDestName sn1 dn1 destResource)
        destResource _ _ eph stateful co ev hmp
      cases ev with
      | migrateFrom r a =>
        have hca := pathEvOk_migrate_config sr1 dr1 destResource _ _ co r a h
        exact sendEvOk_migrateFrom kV (applyConfigMap cm (applyProfArgs p st0)) r a
          hca.1 hca.2
      | localCopy r a => simp [pathEvOk] at h
      | _ => rfl

/-- C5 witness: the handshake event of the all-succeeding run with the
preservation flag off satisfies the per-event state check for the merged
config of the looked-up source container. -/
theorem C5_witness :
    sendEvOk false
      (applyConfigMap none (applyProfArgs none
        ⟨"x86_64", [], [("volatile.base_image", "img1"), ("user.a", "v")], []⟩)).config
      (Ev.migrateFrom "r2"
        (mkMigrateArgs "b" "cert" [("fs", "sec1")]
          ⟨"x86_64", [], [("user.a", "v")], []⟩ "img1" 1 false "/op/ws" "addr1")) =
      true := by
  exact C5_volatile_stripped_base_image_forwarded happyEnv none none "a" "r2:b" false 1
    false false ⟨"x86_64", [], [("volatile.base_image", "img1"), ("user.a", "v")], []⟩
    rfl
    (Ev.migrateFrom "r2"
      (mkMigrateArgs "b" "cert" [("fs", "sec1")]
        ⟨"x86_64", [], [("user.a", "v")], []⟩ "img1" 1 false "/op/ws" "addr1"))
    (by decide)

end LxcCopy
